import Mathlib

/-!
Verification of the ai-service feature-preprocessing and prediction pipeline
(`app/utils.py`, `app/model_registry.py`, `app/main.py`).

Shallow embedding conventions:
* Cell values are `Val`: a rational number (Python float / int), a string, or
  `null` (Python `None` / pandas `NaN` — `normalize_feature_types` maps both to
  the same absence value, and a key missing from an item also shows up as
  `NaN` once the batch `DataFrame` is built, so one constructor is faithful).
* External library behaviour that the code calls but does not define
  (string→number coercion of `pd.to_numeric`, `int(str)`, `str(float)`,
  date parsing of `pd.to_datetime(...).dt.year`, `datetime.now().year`)
  is a parameter record `Ext`; the pipeline is proved for all of them.
* A pandas `DataFrame` is a `Frame`: the list of column names plus one cell
  record per row. A cell absent from a row's record reads as `null`, exactly
  as pandas materialises a missing key; every column read in the source is
  guarded by a `col in df.columns` check, which the embedding mirrors. The
  source never observes the order or multiplicity of `df.columns` (columns
  are only ever tested for membership and selected by name), so `cols` is
  kept as a membership-faithful list.
* Fallible numpy/pandas operations (`astype(int)` on a non-numeric cell,
  selection `KeyError`, the final "No features available" `ValueError`) are
  `Except PipeErr`.
* Rationals stand for IEEE floats; every quantity the claims touch is exact
  decimal arithmetic. In `Scaler.transformRow`, `ℚ` division by zero yields 0
  where numpy would yield `inf`; no fitted `StandardScaler` has a zero
  `scale_` entry (sklearn replaces zeros at fit time) and no theorem here
  exercises that case.
-/

namespace GradeService

/-- A cell value: number, string, or absent (`None`/`NaN`). -/
inductive Val where
  | num (q : ℚ)
  | str (s : String)
  | null
deriving DecidableEq

/-- A raw input item: an ordered association list of feature name to value
(the order models Python dict insertion order; dict keys are unique). -/
abbrev RawItem := List (String × Val)

/-- First-match association-list lookup (Python `dict` access; dict keys are
unique, so first-match agrees with the dict). -/
def alook {β : Type} (k : String) : List (String × β) → Option β
  | [] => none
  | (k', v) :: t => if k' = k then some v else alook k t

/-- Reading one DataFrame cell: a key the row's record does not carry is
`NaN`. -/
def getCell (r : RawItem) (c : String) : Val := (alook c r).getD .null

/-- Writing one DataFrame cell: replace the first binding of the key, or
append one. -/
def aset (k : String) (v : Val) : RawItem → RawItem
  | [] => [(k, v)]
  | (k', v') :: t => if k' = k then (k, v) :: t else (k', v') :: aset k v t

/-- External (library) behaviour the source code calls:
`strNum` is `pd.to_numeric(·, errors="coerce")` on a string cell,
`strInt` is Python `int(·)` on a string cell (used by `astype(int)`),
`numStr` is `str(·)` on a float cell (used by `astype(str)`),
`dateYear` is `pd.to_datetime(·, dayfirst=True, errors="coerce").dt.year`
on a non-null cell, and `curYear` is `datetime.now().year`. -/
structure Ext where
  strNum : String → Option ℚ
  strInt : String → Option Int
  numStr : ℚ → String
  dateYear : Val → Option Int
  curYear : Int

/-- `pd.to_numeric(·, errors="coerce")` on one cell. -/
def toNumeric (E : Ext) : Val → Option ℚ
  | .num q => some q
  | .str s => E.strNum s
  | .null => none

/-- `astype(str)` on one non-null cell (the source only applies it under a
non-null mask, so the `null` branch is unreachable). -/
def valAsStr (E : Ext) : Val → String
  | .num q => E.numStr q
  | .str s => s
  | .null => "nan"

/-- Python `int(·)` truncates toward zero. -/
def ratTrunc (q : ℚ) : Int := if 0 ≤ q then ⌊q⌋ else ⌈q⌉

/-- Errors escaping `build_features_for_prediction`: `valueError` is a Python
`ValueError` (caught by the endpoint as a 400), `keyError` any other
exception (caught as a 500). -/
inductive PipeErr where
  | valueError (msg : String)
  | keyError (msg : String)
deriving DecidableEq

/-- A pandas DataFrame: column-name list (membership-faithful, see the file
comment) plus one cell record per row; cells of absent columns are never
read, because every read in the source is guarded by `col in df.columns`. -/
structure Frame where
  cols : List String
  rows : List RawItem

/-- `pd.DataFrame(list_of_dicts)`: the columns are the union of the items'
keys, a key missing from an item reads as `NaN`. -/
def Frame.ofItems (items : List RawItem) : Frame :=
  { cols := (items.map (fun it => it.map Prod.fst)).flatten,
    rows := items }

def Frame.hasCol (f : Frame) (c : String) : Bool := f.cols.contains c

/-- Column assignment `df[c] = ...` where the new cell of each row may read
the row's other cells; adds the column if absent. -/
def Frame.setCol (f : Frame) (c : String) (g : RawItem → Val) : Frame :=
  { cols := if f.hasCol c then f.cols else f.cols ++ [c],
    rows := f.rows.map (fun r => aset c (g r) r) }

/-- The fixed deny-list dropped before feature assembly (identifiers, PII,
second-course columns, and target/leakage columns), verbatim from the
source. -/
def columnsToDrop : List String :=
  ["id", "ID", "email", "nombre", "Email", "Nombre",
   "AnioAM2", "TutorAM2", "ProfesorAM2", "VecesRecursadaAM2",
   "AsistenciaAM2", "PeriodoAM2", "ModalidadAM2", "TipoMateriaAM2",
   "Parcial1AM2", "Parcial2AM2", "Recuperatorio1AM2", "Recuperatorio2AM2",
   "Final1AM2", "Final2AM2", "Final3AM2", "ApruebaAM2",
   "Carrera",
   "ApruebaAM1", "Abandona",
   "NotaFinalAM1", "Final1AM1", "Final2AM1", "Final3AM1"]

/-- The fixed list of columns coerced with `pd.to_numeric`, verbatim. -/
def numericCols : List String :=
  ["edad", "Parcial1AM1", "Parcial2AM1", "Recuperatorio1AM1", "Recuperatorio2AM1",
   "AsistenciaAM1", "VecesRecursadaAM1", "PromedioNotasColegio", "AniosUniversidad"]

/-- The fixed list of categorical columns the encoding block handles,
verbatim. -/
def categoricalCols : List String :=
  ["Genero", "ProfesorAM1", "ColegioTecnico", "AyudaFinanciera"]

/-- The `feature_order.json` manifest. -/
structure FeatureOrder where
  numeric_features : List String
  categorical_features : List String
  all_features : List String
deriving DecidableEq

/-- Encoder table: categorical column name → the fitted `classes_` list of
its `LabelEncoder` (for a fitted encoder, `transform([v])[0]` is the index of
`v` in `classes_`). -/
abbrev EncTable := List (String × List String)

/-- A fitted `StandardScaler`: per-column `mean_` and `scale_`. -/
structure Scaler where
  mean : List ℚ
  scale : List ℚ

/-- Python truthiness of the `encoders` argument (`if encoders:`): `None`
and the empty dict are both falsy. -/
def encTruthy : Option EncTable → Bool
  | none => false
  | some t => !t.isEmpty

/-- Step "Parse edad from FechaNacimiento if needed" (utils.py lines
161-168): only when `edad` is not a column and `FechaNacimiento` is;
`NaT` (unparseable or null date) leaves `edad` as `NaN`. -/
def deriveEdad (E : Ext) (f : Frame) : Frame :=
  if ¬ f.hasCol "edad" ∧ f.hasCol "FechaNacimiento" then
    f.setCol "edad" (fun r =>
      match getCell r "FechaNacimiento" with
      | .null => .null
      | v => match E.dateYear v with
             | some y => .num ((E.curYear - y : Int) : ℚ)
             | none => .null)
  else f

/-- Step "Drop columns that shouldn't be features" (lines 170-183). -/
def dropCols (f : Frame) : Frame :=
  { cols := f.cols.filter (fun c => !columnsToDrop.contains c), rows := f.rows }

/-- One business-rule imputation (lines 187-204): when both columns exist,
a row whose retake cell coerces to `NaN` while its partial cell coerces to a
number gets the raw partial cell copied into the retake slot. -/
def imputePair (E : Ext) (recupCol parcialCol : String) (f : Frame) : Frame :=
  if f.hasCol recupCol ∧ f.hasCol parcialCol then
    f.setCol recupCol (fun r =>
      if (toNumeric E (getCell r recupCol)).isNone ∧ (toNumeric E (getCell r parcialCol)).isSome
      then getCell r parcialCol else getCell r recupCol)
  else f

/-- Step "Convert numeric columns" (lines 206-213): `pd.to_numeric` with
coercion failures becoming `NaN`. -/
def coerceNumericCols (E : Ext) (cols : List String) (f : Frame) : Frame :=
  cols.foldl
    (fun f c =>
      if f.hasCol c then
        f.setCol c (fun r => match toNumeric E (getCell r c) with
          | some q => .num q
          | none => .null)
      else f) f

/-- `LabelEncoder` lookup with the unseen-category fallback (lines 231-236):
a value in `classes_` encodes to its index, anything else to `-1`. -/
def encodeVal (classes : List String) (s : String) : Int :=
  if classes.contains s then (classes.indexOf s : Int) else -1

/-- Column-wide `astype(int)` (line 243): truncates numeric cells, parses
integer strings, raises `ValueError` on anything else (a `NaN` cannot occur
there because `fillna(-1)` runs first). -/
def astypeIntCol (E : Ext) (c : String) : List RawItem → Except PipeErr (List RawItem)
  | [] => .ok []
  | r :: t => do
      let n ← (match getCell r c with
        | .num q => .ok (ratTrunc q)
        | .str s => match E.strInt s with
            | some n => .ok n
            | none => .error (.valueError "invalid literal for int()")
        | .null => .error (.valueError "cannot convert NaN to integer"))
      let rest ← astypeIntCol E c t
      .ok (aset c (.num (n : ℚ)) r :: rest)

/-- One categorical column under a truthy encoder table (lines 222-243):
if the column exists, encode its non-null cells when some cell is non-null
and the column is in the table, then `fillna(-1).astype(int)`. -/
def encodeCatCol (E : Ext) (tbl : EncTable) (c : String) (f : Frame) : Except PipeErr Frame :=
  if f.hasCol c then
    let f1 :=
      match alook c tbl with
      | some classes =>
          if f.rows.any (fun r => getCell r c ≠ .null) then
            f.setCol c (fun r =>
              if getCell r c ≠ .null then .num ((encodeVal classes (valAsStr E (getCell r c)) : Int) : ℚ)
              else getCell r c)
          else f
      | none => f
    let f2 := f1.setCol c (fun r => if getCell r c = .null then .num (-1) else getCell r c)
    (astypeIntCol E c f2.rows).map (fun rs => { cols := f2.cols, rows := rs })
  else .ok f

/-- Structural fold of a fallible per-column step over a column list. -/
def foldColsM (step : String → Frame → Except PipeErr Frame) : List String → Frame → Except PipeErr Frame
  | [], f => .ok f
  | c :: t, f => do
      let f' ← step c f
      foldColsM step t f'

/-- The whole categorical block (lines 219-248): with a truthy encoder table
each hardcoded categorical column is label-encoded; otherwise (`None` or
empty dict) each present one is `pd.to_numeric(...).fillna(-1).astype(int)` —
note a numeric cell keeps its (truncated) value in that branch. -/
def catBlock (E : Ext) (encoders : Option EncTable) (f : Frame) : Except PipeErr Frame :=
  if encTruthy encoders then
    foldColsM (encodeCatCol E (encoders.getD [])) categoricalCols f
  else
    .ok (categoricalCols.foldl
      (fun f c =>
        if f.hasCol c then
          f.setCol c (fun r => .num (((toNumeric E (getCell r c)).map ratTrunc).getD (-1) : ℚ))
        else f) f)

/-- Step "Handle missing values in numeric columns" (lines 250-255): every
manifest numeric feature present in the frame is coerced and `fillna(0)`. -/
def fillNumericFeatures (E : Ext) (fo : FeatureOrder) (f : Frame) : Frame :=
  fo.numeric_features.foldl
    (fun f c =>
      if f.hasCol c then
        f.setCol c (fun r => .num ((toNumeric E (getCell r c)).getD 0))
      else f) f

/-- `Series.median()` over the non-null entries (pandas: mean of the two
middle elements for an even count). -/
def listMedian (l : List ℚ) : ℚ :=
  let s := l.insertionSort (· ≤ ·)
  let n := s.length
  if n % 2 = 1 then s.getD (n / 2) 0
  else (s.getD (n / 2 - 1) 0 + s.getD (n / 2) 0) / 2

/-- The `FechaNacimiento_numeric` block (lines 260-272), run only when that
name appears in `all_features`: derive the birth year per row, filling
unparseable rows with the batch median year (or the current year when no row
parses); without the raw date column, synthesize the current year. -/
def fechaNumericBlock (E : Ext) (fo : FeatureOrder) (f : Frame) : Frame :=
  if fo.all_features.contains "FechaNacimiento_numeric" then
    if f.hasCol "FechaNacimiento" then
      let yearOf : RawItem → Option Int := fun r =>
        match getCell r "FechaNacimiento" with
        | .null => none
        | v => E.dateYear v
      let years := f.rows.filterMap yearOf
      let dflt : ℚ :=
        if years.isEmpty then (E.curYear : ℚ)
        else listMedian (years.map (fun y => (y : ℚ)))
      f.setCol "FechaNacimiento_numeric" (fun r =>
        match yearOf r with
        | some y => .num (y : ℚ)
        | none => .num dflt)
    else if ¬ f.hasCol "FechaNacimiento_numeric" then
      f.setCol "FechaNacimiento_numeric" (fun _ => .num (E.curYear : ℚ))
    else f
  else f

/-- Step "Ensure all required features exist" (lines 276-284): absent
manifest columns are synthesized as `0.0` (numeric), `-1` (categorical) or
`0.0` (fallback). -/
def synthesizeMissing (fo : FeatureOrder) (f : Frame) : Frame :=
  fo.all_features.foldl
    (fun f feat =>
      if f.hasCol feat then f
      else f.setCol feat (fun _ =>
        if fo.numeric_features.contains feat then .num 0
        else if fo.categorical_features.contains feat then .num (-1)
        else .num 0)) f

/-- `StandardScaler.transform` on one row of the numeric sub-block:
`(x - mean_) / scale_` per column; errors on a shape mismatch or a
non-numeric cell, as numpy would. -/
def Scaler.transformRow (sc : Scaler) (xs : List Val) : Except PipeErr (List Val) :=
  if xs.length = sc.mean.length ∧ sc.mean.length = sc.scale.length then
    transRow xs sc.mean sc.scale
  else .error (.valueError "X has a different shape than during fitting")
where
  transRow : List Val → List ℚ → List ℚ → Except PipeErr (List Val)
    | [], _, _ => .ok []
    | x :: xs, m :: ms, s :: ss => do
        let q ← (match x with
          | .num q => .ok ((q - m) / s)
          | _ => .error (.valueError "could not convert to float"))
        let rest ← transRow xs ms ss
        .ok (.num q :: rest)
    | _, _, _ => .error (.valueError "shape mismatch")

/-- Fallible map over rows. -/
def mapRowsM (g : RawItem → Except PipeErr (List Val)) : List RawItem → Except PipeErr (List (List Val))
  | [] => .ok []
  | r :: t => do
      let x ← g r
      let rest ← mapRowsM g t
      .ok (x :: rest)

/-- Final selection, split, scaling and assembly (lines 286-309):
`X = df[all_features]`, split into `X[numeric_features]` and
`X[categorical_features]` (a `KeyError` when a sub-block name is not among
`all_features`), scale the numeric sub-block when a scaler is present, then
`hstack` numeric-before-categorical; both sub-blocks empty is the
"No features available" `ValueError`. -/
def assembleMatrix (fo : FeatureOrder) (scaler : Option Scaler) (f : Frame) : Except PipeErr (List (List Val)) :=
  if fo.numeric_features.all (fun c => fo.all_features.contains c) then
    if fo.categorical_features.all (fun c => fo.all_features.contains c) then do
      let xnum ← (match scaler with
        | some sc =>
            if ¬ fo.numeric_features.isEmpty then
              mapRowsM (fun r => sc.transformRow (fo.numeric_features.map (getCell r))) f.rows
            else .ok (f.rows.map (fun r => fo.numeric_features.map (getCell r)))
        | none => .ok (f.rows.map (fun r => fo.numeric_features.map (getCell r))))
      let xcat := f.rows.map (fun r => fo.categorical_features.map (getCell r))
      if ¬ fo.numeric_features.isEmpty ∧ ¬ fo.categorical_features.isEmpty then
        .ok (List.zipWith (· ++ ·) xnum xcat)
      else if ¬ fo.numeric_features.isEmpty then
        .ok xnum
      else if ¬ fo.categorical_features.isEmpty then
        .ok xcat
      else
        .error (.valueError "No features available for prediction!")
    else .error (.keyError "categorical_features not in columns")
  else .error (.keyError "numeric_features not in columns")

/-- `build_features_for_prediction` (utils.py lines 139-309), step for step
in source order: DataFrame construction, `edad` derivation, column
dropping, the two retake imputations, numeric coercion, the categorical
block, manifest-numeric fill, the `FechaNacimiento_numeric` block, missing
column synthesis, and final selection/scaling/assembly. -/
def build_features_for_prediction (E : Ext) (items : List RawItem)
    (encoders : Option EncTable) (fo : FeatureOrder) (scaler : Option Scaler) :
    Except PipeErr (List (List Val)) := do
  let f0 := Frame.ofItems items
  let f1 := deriveEdad E f0
  let f2 := dropCols f1
  let f3 := imputePair E "Recuperatorio1AM1" "Parcial1AM1" f2
  let f4 := imputePair E "Recuperatorio2AM1" "Parcial2AM1" f3
  let f5 := coerceNumericCols E numericCols f4
  let f6 ← catBlock E encoders f5
  let f7 := fillNumericFeatures E fo f6
  let f8 := fechaNumericBlock E fo f7
  let f9 := synthesizeMissing fo f8
  assembleMatrix fo scaler f9

/-- The feature frame after every preprocessing step and before the final
selection/scaling/assembly — steps 1-8 of `build_features_for_prediction`
(`utils.py` lines 157-284), so that
`build_features_for_prediction = preprocessFrame >>= assembleMatrix`.
Named so theorems can tie the output matrix's sub-blocks to the actual
processed rows. -/
def preprocessFrame (E : Ext) (items : List RawItem) (encoders : Option EncTable)
    (fo : FeatureOrder) : Except PipeErr Frame :=
  (catBlock E encoders (coerceNumericCols E numericCols
      (imputePair E "Recuperatorio2AM1" "Parcial2AM1"
        (imputePair E "Recuperatorio1AM1" "Parcial1AM1"
          (dropCols (deriveEdad E (Frame.ofItems items))))))).map
    (fun f6 => synthesizeMissing fo (fechaNumericBlock E fo (fillNumericFeatures E fo f6)))

/-! ## Grade clamping (`utils.py` lines 85-99, `config.py` THRESHOLDS) -/

/-- `max(min_grade, min(max_grade, float(pred)))` for one prediction. -/
def clamp1 (lo hi x : ℚ) : ℚ := max lo (min hi x)

/-- `clamp_grades` (utils.py lines 85-99); `lo`/`hi` are the configured
`THRESHOLDS["min_grade"]`/`THRESHOLDS["max_grade"]`. -/
def clamp_grades (lo hi : ℚ) (preds : List ℚ) : List ℚ :=
  preds.map (fun p => clamp1 lo hi p)

/-- `THRESHOLDS["min_grade"]` default (`config.py` line 29). -/
def min_grade : ℚ := 1

/-- `THRESHOLDS["max_grade"]` default (`config.py` line 30). -/
def max_grade : ℚ := 10

/-! ## Artifact store, bundle loading and cache (`model_registry.py`) -/

/-- The trained model: one float per input row (its internals are outside
the repository; theorems that need its row-count contract take it as a
hypothesis). -/
abbrev ModelFn := List (List Val) → List ℚ

/-- The metadata file content; only its presence matters to the claims. -/
abbrev Meta := Unit

/-- The on-disk artifact directory for one `{name}/{version}/`: each field
is the content of one candidate file, `none` when the file is absent.
The two naming generations of `get_model_paths` (lines 29-45) are the
`…Joblib`/`…Pkl` field pairs. -/
structure Disk where
  modelJoblib : Option ModelFn
  modelPkl : Option ModelFn
  scalerJoblib : Option Scaler
  scalerPkl : Option Scaler
  encodersJoblib : Option EncTable
  encoderPkl : Option EncTable
  featureOrderJson : Option FeatureOrder
  metaJson : Option Meta
  metadataJson : Option Meta

/-- `get_model_paths` + `load_model` (lines 29-82): the chosen path is the
first existing of the two conventions; loading yields `None` when it does
not exist. -/
def load_model (d : Disk) : Option ModelFn := d.modelJoblib.orElse (fun _ => d.modelPkl)

/-- `load_scaler` (lines 109-124): optional, `None` when absent. -/
def load_scaler (d : Disk) : Option Scaler := d.scalerJoblib.orElse (fun _ => d.scalerPkl)

/-- `load_encoder` (lines 127-142): optional, `None` when absent. -/
def load_encoder (d : Disk) : Option EncTable := d.encodersJoblib.orElse (fun _ => d.encoderPkl)

/-- A fully loaded artifact bundle (`ensure_models_loaded`'s result dict). -/
structure Bundle where
  model : ModelFn
  scaler : Option Scaler
  encoders : Option EncTable
  feature_order : FeatureOrder
  meta : Meta

/-- The cache-miss path of `ensure_models_loaded` (lines 203-250): the model
file and `feature_order.json` are mandatory (`FileNotFoundError` when
absent), metadata falls back from `meta.json` to legacy `metadata.json` and
is mandatory, scaler and encoders load as `None` when absent. -/
def loadBundle (d : Disk) : Except String Bundle :=
  match load_model d with
  | none => .error "Model not found"
  | some m =>
    match d.featureOrderJson with
    | none => .error "Feature order not found"
    | some fo =>
      match d.metaJson.orElse (fun _ => d.metadataJson) with
      | none => .error "Metadata not found"
      | some mt => .ok ⟨m, load_scaler d, load_encoder d, fo, mt⟩

/-- The process-wide artifact cache `ensure_models_loaded._cache`,
keyed by `"{name}:{version}"`. -/
abbrev Cache := List (String × Bundle)

/-- `ensure_models_loaded` (lines 173-250) over an explicit cache state.
Returns the outcome, the new cache state, and whether the artifact store
(disk) was touched: a cache hit returns the cached bundle without disk
access; a miss loads from disk, caching only on success. -/
def ensure_models_loaded (cache : Cache) (d : Disk) (name version : String) :
    Except String Bundle × Cache × Bool :=
  let key := name ++ ":" ++ version
  match alook key cache with
  | some b => (.ok b, cache, false)
  | none =>
      match loadBundle d with
      | .ok b => (.ok b, cache ++ [(key, b)], true)
      | .error e => (.error e, cache, true)

/-! ## Stable feature hash (`utils.py` lines 15-28) -/

/-- The sorted key list of one item, as `json.dumps(·, sort_keys=True)`
serialises it (Python dict keys are unique; `dedup` makes the model total on
association lists). -/
def canonKeys (it : RawItem) : List String :=
  ((it.map Prod.fst).dedup).insertionSort (fun a b => a ≤ b)

/-- One item as `json.dumps` sees it under `sort_keys=True`: its bindings in
sorted key order. -/
def canonItem (it : RawItem) : List (String × Option Val) :=
  (canonKeys it).map (fun k => (k, alook k it))

/-- The whole item list in canonical serialisation order. -/
def canonicalize (items : List RawItem) : List (List (String × Option Val)) :=
  items.map canonItem

/-- `stable_features_hash` (lines 15-28): `md5(json.dumps(items,
sort_keys=True, default=str))`. `json.dumps` with sorted keys is determined
by (and injective on) the canonical form, so the composite
`md5 ∘ json.dumps` is the `digest` parameter applied to the canonical form;
md5-collision-freedom on the inputs of interest is exactly injectivity of
`digest`. -/
def stable_features_hash {H : Type} (digest : List (List (String × Option Val)) → H)
    (items : List RawItem) : H :=
  digest (canonicalize items)

/-! ## The `/predict/grades` orchestrator (`main.py` lines 78-157) -/

/-- Response of a successful prediction (the metadata fields the claims do
not mention — latency, timestamp, r2/mae — are omitted). -/
structure PredictResponse where
  preds : List ℚ
  n_items : Nat
  features_hash : String

/-- The HTTP error classes raised by the endpoint: 400, 503, 500. -/
inductive HttpError where
  | badRequest (detail : String)
  | serviceUnavailable (detail : String)
  | internalError (detail : String)

/-- `predict_grades` (main.py lines 78-157) over an explicit cache state:
empty item list → 400 before any artifact access; artifact loading failure →
503; `ValueError` from the feature builder → 400, any other builder
exception → 500; otherwise predict, clamp with the configured thresholds
(defaults 1 and 10), and assemble the response. Returns the outcome, the
new cache state, and whether the artifact store was touched. -/
def predict_grades (E : Ext) (digest : List (List (String × Option Val)) → String)
    (cache : Cache) (disk : Disk) (version : String) (items : List RawItem) :
    Except HttpError PredictResponse × Cache × Bool :=
  if items.isEmpty then
    (.error (.badRequest "Items list cannot be empty"), cache, false)
  else
    match ensure_models_loaded cache disk "grades" version with
    | (.error e, c', t) => (.error (.serviceUnavailable e), c', t)
    | (.ok b, c', t) =>
      match build_features_for_prediction E items b.encoders b.feature_order b.scaler with
      | .error (.valueError m) => (.error (.badRequest m), c', t)
      | .error (.keyError m) => (.error (.internalError m), c', t)
      | .ok X =>
        (.ok { preds := clamp_grades min_grade max_grade (b.model X),
               n_items := items.length,
               features_hash := stable_features_hash digest items }, c', t)

/-- A concrete externals record for closed theorems: library parsers that
never parse (no theorem below feeds them a value they would have to
parse). -/
def extNone : Ext := ⟨fun _ => none, fun _ => none, fun _ => "", fun _ => none, 2026⟩

/-- Concrete artifacts for closed theorems: a constant-7 model, no scaler,
no encoders, a single categorical feature manifest, and a `meta.json`. -/
def diskW : Disk :=
  ⟨some (fun Y => Y.map (fun _ => (7 : ℚ))), none, none, none, none, none,
   some ⟨[], ["Genero"], ["Genero"]⟩, some (), none⟩

/-- The bundle `loadBundle diskW` produces. -/
def bundleW : Bundle :=
  ⟨fun Y => Y.map (fun _ => (7 : ℚ)), none, none, ⟨[], ["Genero"], ["Genero"]⟩, ()⟩

/-- A concrete digest function for closed theorems. -/
def digestW : List (List (String × Option Val)) → String := fun _ => "digest"

/-! ## Helper lemmas -/

theorem clamp1_ge_lo (lo hi x : ℚ) : lo ≤ clamp1 lo hi x := le_max_left _ _

theorem clamp1_le_hi (lo hi x : ℚ) (h : lo ≤ hi) : clamp1 lo hi x ≤ hi :=
  max_le h (min_le_left _ _)

theorem clamp1_idem (lo hi x : ℚ) (h : lo ≤ hi) :
    clamp1 lo hi (clamp1 lo hi x) = clamp1 lo hi x := by
  have h1 : lo ≤ clamp1 lo hi x := clamp1_ge_lo lo hi x
  have h2 : clamp1 lo hi x ≤ hi := clamp1_le_hi lo hi x h
  calc clamp1 lo hi (clamp1 lo hi x) = max lo (min hi (clamp1 lo hi x)) := rfl
    _ = max lo (clamp1 lo hi x) := by rw [min_eq_right h2]
    _ = clamp1 lo hi x := max_eq_right h1

instance {ε α : Type} [DecidableEq ε] [DecidableEq α] : DecidableEq (Except ε α) := fun a b =>
  match a, b with
  | .ok x, .ok y =>
      if h : x = y then .isTrue (by rw [h]) else .isFalse (by intro hc; cases hc; exact h rfl)
  | .error x, .error y =>
      if h : x = y then .isTrue (by rw [h]) else .isFalse (by intro hc; cases hc; exact h rfl)
  | .ok _, .error _ => .isFalse (by intro hc; cases hc)
  | .error _, .ok _ => .isFalse (by intro hc; cases hc)

theorem exceptBind_ok {α β : Type} {x : Except PipeErr α} {g : α → Except PipeErr β} {b : β}
    (h : (x >>= g) = .ok b) : ∃ a, x = .ok a ∧ g a = .ok b := by
  cases x with
  | error e => simp [Bind.bind, Except.bind] at h
  | ok a => exact ⟨a, rfl, by simpa [Bind.bind, Except.bind] using h⟩

theorem length_setCol (f : Frame) (c : String) (g : RawItem → Val) :
    (f.setCol c g).rows.length = f.rows.length := by
  simp [Frame.setCol]

theorem length_foldlCols (step : Frame → String → Frame)
    (hstep : ∀ f c, (step f c).rows.length = f.rows.length) :
    ∀ (l : List String) (f : Frame), (l.foldl step f).rows.length = f.rows.length := by
  intro l
  induction l with
  | nil => intro f; rfl
  | cons c t ih => intro f; rw [List.foldl_cons, ih, hstep]

theorem length_deriveEdad (E : Ext) (f : Frame) :
    (deriveEdad E f).rows.length = f.rows.length := by
  unfold deriveEdad; split <;> simp [length_setCol]

theorem length_dropCols (f : Frame) : (dropCols f).rows.length = f.rows.length := rfl

theorem length_imputePair (E : Ext) (a b : String) (f : Frame) :
    (imputePair E a b f).rows.length = f.rows.length := by
  unfold imputePair; split <;> simp [length_setCol]

theorem length_coerceNumericCols (E : Ext) (cols : List String) (f : Frame) :
    (coerceNumericCols E cols f).rows.length = f.rows.length := by
  apply length_foldlCols
  intro f c
  split <;> simp [length_setCol]

theorem length_fillNumericFeatures (E : Ext) (fo : FeatureOrder) (f : Frame) :
    (fillNumericFeatures E fo f).rows.length = f.rows.length := by
  apply length_foldlCols
  intro f c
  split <;> simp [length_setCol]

theorem length_fechaNumericBlock (E : Ext) (fo : FeatureOrder) (f : Frame) :
    (fechaNumericBlock E fo f).rows.length = f.rows.length := by
  unfold fechaNumericBlock
  split
  · split
    · simp [length_setCol]
    · split <;> simp [length_setCol]
  · rfl

theorem length_synthesizeMissing (fo : FeatureOrder) (f : Frame) :
    (synthesizeMissing fo f).rows.length = f.rows.length := by
  apply length_foldlCols
  intro f c
  split <;> simp [length_setCol]

theorem astypeIntCol_ok_length (E : Ext) (c : String) :
    ∀ {rows rs : List RawItem}, astypeIntCol E c rows = .ok rs → rs.length = rows.length := by
  intro rows
  induction rows with
  | nil => intro rs h; cases h; rfl
  | cons r t ih =>
    intro rs h
    unfold astypeIntCol at h
    obtain ⟨n, _, h⟩ := exceptBind_ok h
    obtain ⟨rest, hrest, h⟩ := exceptBind_ok h
    cases h
    simp [ih hrest]

theorem exceptMap_ok {α β : Type} {x : Except PipeErr α} {g : α → β} {b : β}
    (h : x.map g = .ok b) : ∃ a, x = .ok a ∧ g a = b := by
  cases x with
  | error e => simp [Except.map] at h
  | ok a => exact ⟨a, rfl, by simpa [Except.map] using h⟩

theorem encodeCatCol_ok_length (E : Ext) (tbl : EncTable) (c : String) {f f' : Frame}
    (h : encodeCatCol E tbl c f = .ok f') : f'.rows.length = f.rows.length := by
  unfold encodeCatCol at h
  split at h
  · obtain ⟨rs, hrs, hmk⟩ := exceptMap_ok h
    have h2 := astypeIntCol_ok_length E c hrs
    subst hmk
    dsimp only
    rw [h2]
    simp only [length_setCol]
    split
    · split <;> simp [length_setCol]
    · rfl
  · cases h; rfl

theorem foldColsM_ok_length (step : String → Frame → Except PipeErr Frame)
    (hstep : ∀ c {f f' : Frame}, step c f = .ok f' → f'.rows.length = f.rows.length) :
    ∀ (l : List String) {f f' : Frame}, foldColsM step l f = .ok f' →
      f'.rows.length = f.rows.length := by
  intro l
  induction l with
  | nil => intro f f' h; cases h; rfl
  | cons c t ih =>
    intro f f' h
    unfold foldColsM at h
    obtain ⟨f1, h1, h2⟩ := exceptBind_ok h
    rw [ih h2, hstep c h1]

theorem catBlock_ok_length (E : Ext) (encoders : Option EncTable) {f f' : Frame}
    (h : catBlock E encoders f = .ok f') : f'.rows.length = f.rows.length := by
  unfold catBlock at h
  split at h
  · exact foldColsM_ok_length _ (fun c _ _ hc => encodeCatCol_ok_length E _ c hc) _ h
  · cases h
    apply length_foldlCols
    intro f c
    split <;> simp [length_setCol]

theorem mapRowsM_ok_length (g : RawItem → Except PipeErr (List Val)) :
    ∀ {rows : List RawItem} {out : List (List Val)}, mapRowsM g rows = .ok out →
      out.length = rows.length := by
  intro rows
  induction rows with
  | nil => intro out h; cases h; rfl
  | cons r t ih =>
    intro out h
    unfold mapRowsM at h
    obtain ⟨x, _, h⟩ := exceptBind_ok h
    obtain ⟨rest, hrest, h⟩ := exceptBind_ok h
    cases h
    simp [ih hrest]

theorem mapRowsM_ok_mem (g : RawItem → Except PipeErr (List Val)) :
    ∀ {rows : List RawItem} {out : List (List Val)}, mapRowsM g rows = .ok out →
      ∀ x ∈ out, ∃ r ∈ rows, g r = .ok x := by
  intro rows
  induction rows with
  | nil => intro out h; cases h; intro x hx; cases hx
  | cons r t ih =>
    intro out h
    unfold mapRowsM at h
    obtain ⟨x, hx, h⟩ := exceptBind_ok h
    obtain ⟨rest, hrest, h⟩ := exceptBind_ok h
    cases h
    intro y hy
    rcases List.mem_cons.mp hy with hy | hy
    · exact ⟨r, List.mem_cons_self _ _, hy ▸ hx⟩
    · obtain ⟨r', hr', hg⟩ := ih hrest y hy
      exact ⟨r', List.mem_cons_of_mem _ hr', hg⟩

theorem transRow_ok_length :
    ∀ {xs : List Val} {ms ss : List ℚ} {out : List Val},
      Scaler.transformRow.transRow xs ms ss = .ok out → out.length = xs.length := by
  intro xs
  induction xs with
  | nil =>
    intro ms ss out h
    unfold Scaler.transformRow.transRow at h
    cases h; rfl
  | cons x t ih =>
    intro ms ss out h
    unfold Scaler.transformRow.transRow at h
    cases ms with
    | nil => cases h
    | cons m mt =>
      cases ss with
      | nil => cases h
      | cons s st =>
        obtain ⟨q, _, h⟩ := exceptBind_ok h
        obtain ⟨rest, hrest, h⟩ := exceptBind_ok h
        cases h
        simp [ih hrest]

theorem transformRow_ok_length (sc : Scaler) {xs : List Val} {out : List Val}
    (h : sc.transformRow xs = .ok out) : out.length = xs.length := by
  unfold Scaler.transformRow at h
  split at h
  · exact transRow_ok_length h
  · cases h

theorem zipWith_append_right_nils :
    ∀ (xs ys : List (List Val)), ys.length = xs.length → (∀ y ∈ ys, y = []) →
      List.zipWith (· ++ ·) xs ys = xs := by
  intro xs
  induction xs with
  | nil => intro ys _ _; simp
  | cons x xt ih =>
    intro ys hlen hy
    cases ys with
    | nil => cases hlen
    | cons y yt =>
      simp only [List.zipWith_cons_cons]
      rw [hy y (List.mem_cons_self ..), List.append_nil,
        ih yt (by simpa using hlen) (fun z hz => hy z (List.mem_cons_of_mem _ hz))]

theorem zipWith_append_left_nils :
    ∀ (xs ys : List (List Val)), xs.length = ys.length → (∀ x ∈ xs, x = []) →
      List.zipWith (· ++ ·) xs ys = ys := by
  intro xs
  induction xs with
  | nil =>
    intro ys hlen _
    cases ys with
    | nil => rfl
    | cons y yt => cases hlen
  | cons x xt ih =>
    intro ys hlen hx
    cases ys with
    | nil => cases hlen
    | cons y yt =>
      simp only [List.zipWith_cons_cons]
      rw [hx x (List.mem_cons_self ..), List.nil_append,
        ih yt (by simpa using hlen) (fun z hz => hx z (List.mem_cons_of_mem _ hz))]

/-- Shape and block structure of `assembleMatrix`'s successful output: one
row per frame row, each row the numeric sub-block (one entry per
`numeric_features` name, in order) followed by the categorical sub-block
(one entry per `categorical_features` name, in order); without a scaler (or
with nothing to scale) the numeric sub-block is the plain column selection,
and with a scaler it is exactly the `transformRow` image of that selection. -/
theorem assembleMatrix_ok_blocks (fo : FeatureOrder) (scaler : Option Scaler) (f : Frame)
    {M : List (List Val)} (h : assembleMatrix fo scaler f = .ok M) :
    ∃ xnum : List (List Val),
      xnum.length = f.rows.length
      ∧ (∀ r ∈ xnum, r.length = fo.numeric_features.length)
      ∧ M = List.zipWith (· ++ ·) xnum
          (f.rows.map (fun r => fo.categorical_features.map (getCell r)))
      ∧ ((scaler = none ∨ fo.numeric_features = []) →
          xnum = f.rows.map (fun r => fo.numeric_features.map (getCell r)))
      ∧ (∀ sc, scaler = some sc → fo.numeric_features ≠ [] →
          mapRowsM (fun r => sc.transformRow (fo.numeric_features.map (getCell r)))
              f.rows = .ok xnum) := by
  unfold assembleMatrix at h
  split at h
  on_goal 2 => cases h
  split at h
  on_goal 2 => cases h
  have hplain :
      (f.rows.map (fun r => fo.numeric_features.map (getCell r))).length = f.rows.length
      ∧ ∀ r ∈ f.rows.map (fun r => fo.numeric_features.map (getCell r)),
          r.length = fo.numeric_features.length := by
    constructor
    · simp
    · intro r hr
      obtain ⟨a, _, ha⟩ := List.mem_map.mp hr
      simp [← ha]
  obtain ⟨xnum, hx, h⟩ := exceptBind_ok h
  have hxnum : xnum.length = f.rows.length ∧
      (∀ r ∈ xnum, r.length = fo.numeric_features.length) ∧
      ((scaler = none ∨ fo.numeric_features = []) →
        xnum = f.rows.map (fun r => fo.numeric_features.map (getCell r))) ∧
      (∀ sc, scaler = some sc → fo.numeric_features ≠ [] →
        mapRowsM (fun r => sc.transformRow (fo.numeric_features.map (getCell r)))
            f.rows = .ok xnum) := by
    cases scaler with
    | none =>
      cases hx
      exact ⟨hplain.1, hplain.2, fun _ => rfl, fun sc hsc => by cases hsc⟩
    | some sc =>
      dsimp only at hx
      by_cases hne : fo.numeric_features.isEmpty = true
      · rw [if_neg (by simp [hne])] at hx
        cases hx
        refine ⟨hplain.1, hplain.2, fun _ => rfl, ?_⟩
        intro sc' _ hne'
        exact absurd (List.isEmpty_iff.mp hne) hne'
      · rw [if_pos (by simp [hne])] at hx
        refine ⟨mapRowsM_ok_length _ hx, ?_, ?_, ?_⟩
        · intro r hr
          obtain ⟨r', _, hg⟩ := mapRowsM_ok_mem _ hx r hr
          rw [transformRow_ok_length _ hg]
          simp
        · rintro (hc | hc)
          · cases hc
          · exact absurd (by simp [hc] : fo.numeric_features.isEmpty = true) hne
        · intro sc' hsc' _
          injection hsc' with hsc''
          rw [← hsc'']
          exact hx
  obtain ⟨hxlen, hxrow, hxnone, hxscaled⟩ := hxnum
  dsimp only at h
  by_cases hA : fo.numeric_features.isEmpty = true
  · -- numeric sub-block empty
    have hnf : fo.numeric_features = [] := List.isEmpty_iff.mp hA
    by_cases hB : fo.categorical_features.isEmpty = true
    · rw [if_neg (by simp [hA]), if_neg (by simp [hA]), if_neg (by simp [hB])] at h
      simp at h
    · rw [if_neg (by simp [hA]), if_neg (by simp [hA]), if_pos hB] at h
      injection h with h'
      subst h'
      refine ⟨xnum, hxlen, hxrow, ?_, hxnone, hxscaled⟩
      have hxnil : ∀ x ∈ xnum, x = [] := by
        intro x hx'
        have := hxrow x hx'
        rw [hnf] at this
        exact List.length_eq_zero.mp this
      exact (zipWith_append_left_nils _ _ (by simp [hxlen]) hxnil).symm
  · by_cases hB : fo.categorical_features.isEmpty = true
    · -- categorical sub-block empty: the matrix is the numeric block alone
      have hcf : fo.categorical_features = [] := List.isEmpty_iff.mp hB
      rw [if_neg (by simp [hB]), if_pos hA] at h
      injection h with h'
      subst h'
      refine ⟨xnum, hxlen, hxrow, ?_, hxnone, hxscaled⟩
      rw [hcf]
      exact (zipWith_append_right_nils _ _ (by simp [hxlen]) (by simp)).symm
    · rw [if_pos ⟨hA, hB⟩] at h
      injection h with h'
      subst h'
      exact ⟨xnum, hxlen, hxrow, rfl, hxnone, hxscaled⟩

theorem ratTrunc_intCast (n : Int) : ratTrunc ((n : Int) : ℚ) = n := by
  unfold ratTrunc
  split <;> simp

theorem ratTrunc_neg_one : ((ratTrunc (-1 : ℚ) : Int) : ℚ) = (-1 : ℚ) := by
  have h : (-1 : ℚ) = ((-1 : Int) : ℚ) := by norm_num
  rw [h, ratTrunc_intCast]

/-- Stage-by-stage decomposition of `build_features_for_prediction`, used to
evaluate concrete and parametric scenarios one pipeline step at a time. -/
theorem build_by_stages {E : Ext} {items : List RawItem} {enc : Option EncTable}
    {fo : FeatureOrder} {sc : Option Scaler} {f2 f3 f4 f5 f6 f7 f8 f9 : Frame}
    {out : Except PipeErr (List (List Val))}
    (h1 : dropCols (deriveEdad E (Frame.ofItems items)) = f2)
    (h2 : imputePair E "Recuperatorio1AM1" "Parcial1AM1" f2 = f3)
    (h3 : imputePair E "Recuperatorio2AM1" "Parcial2AM1" f3 = f4)
    (h4 : coerceNumericCols E numericCols f4 = f5)
    (h5 : catBlock E enc f5 = .ok f6)
    (h6 : fillNumericFeatures E fo f6 = f7)
    (h7 : fechaNumericBlock E fo f7 = f8)
    (h8 : synthesizeMissing fo f8 = f9)
    (h9 : assembleMatrix fo sc f9 = out) :
    build_features_for_prediction E items enc fo sc = out := by
  unfold build_features_for_prediction
  dsimp only
  rw [h1, h2, h3, h4, h5]
  show assembleMatrix fo sc (synthesizeMissing fo (fechaNumericBlock E fo
    (fillNumericFeatures E fo f6))) = out
  rw [h6, h7, h8]
  exact h9

/-- `build_features_for_prediction` is exactly `assembleMatrix` run on the
preprocessed frame. -/
theorem build_eq_assemble_of_preprocess (E : Ext) (items : List RawItem)
    (encoders : Option EncTable) (fo : FeatureOrder) (scaler : Option Scaler) :
    build_features_for_prediction E items encoders fo scaler
      = preprocessFrame E items encoders fo >>= fun f9 => assembleMatrix fo scaler f9 := by
  unfold build_features_for_prediction preprocessFrame
  dsimp only
  cases catBlock E encoders (coerceNumericCols E numericCols
      (imputePair E "Recuperatorio2AM1" "Parcial2AM1"
        (imputePair E "Recuperatorio1AM1" "Parcial1AM1"
          (dropCols (deriveEdad E (Frame.ofItems items)))))) with
  | error e => rfl
  | ok f6 => rfl

theorem preprocess_ok_rows_length {E : Ext} {items : List RawItem}
    {encoders : Option EncTable} {fo : FeatureOrder} {f9 : Frame}
    (h : preprocessFrame E items encoders fo = .ok f9) :
    f9.rows.length = items.length := by
  unfold preprocessFrame at h
  obtain ⟨f6, hcb, hmk⟩ := exceptMap_ok h
  rw [← hmk, length_synthesizeMissing, length_fechaNumericBlock, length_fillNumericFeatures,
    catBlock_ok_length E encoders hcb, length_coerceNumericCols, length_imputePair,
    length_imputePair, length_dropCols, length_deriveEdad]
  rfl

theorem zipWith_map_same {α β : Type} (f : β → β → β) (g g' : α → β) :
    ∀ l : List α, List.zipWith f (l.map g) (l.map g') = l.map (fun x => f (g x) (g' x)) := by
  intro l
  induction l with
  | nil => rfl
  | cons a t ih => simp only [List.map_cons, List.zipWith_cons_cons, ih]

theorem zipWith_append_mem_length (na nb : Nat) :
    ∀ (xs ys : List (List Val)), (∀ x ∈ xs, x.length = na) → (∀ y ∈ ys, y.length = nb) →
      ∀ r ∈ List.zipWith (· ++ ·) xs ys, r.length = na + nb := by
  intro xs
  induction xs with
  | nil => intro ys _ _ r hr; cases hr
  | cons x xt ih =>
    intro ys hx hy r hr
    cases ys with
    | nil => cases hr
    | cons y yt =>
      simp only [List.zipWith_cons_cons] at hr
      rcases List.mem_cons.mp hr with hr | hr
      · rw [hr]
        simp [hx x (List.mem_cons_self _ _), hy y (List.mem_cons_self _ _)]
      · exact ih yt (fun z hz => hx z (List.mem_cons_of_mem _ hz))
          (fun z hz => hy z (List.mem_cons_of_mem _ hz)) r hr

/-- Shape and layout of every successful `build_features_for_prediction`
output (shared helper): one row per item; each row is the numeric sub-block
followed by the categorical sub-block, both taken from the rows of the
actually-preprocessed frame — plain `numeric_features`-order column
selection when no scaler applies, the `transformRow` image of that
selection when one does — and the matrix coincides with the
`all_features`-order selection exactly when
`all_features = numeric_features ++ categorical_features`. -/
theorem build_ok_shape (E : Ext) (items : List RawItem)
    (encoders : Option EncTable) (fo : FeatureOrder) (scaler : Option Scaler)
    (M : List (List Val))
    (h : build_features_for_prediction E items encoders fo scaler = .ok M) :
    M.length = items.length
    ∧ (∀ row ∈ M, row.length = fo.numeric_features.length + fo.categorical_features.length)
    ∧ ∃ f9 : Frame,
        preprocessFrame E items encoders fo = .ok f9
        ∧ f9.rows.length = items.length
        ∧ ((scaler = none ∨ fo.numeric_features = []) →
            M = f9.rows.map (fun r => fo.numeric_features.map (getCell r)
                  ++ fo.categorical_features.map (getCell r)))
        ∧ (∀ sc, scaler = some sc → fo.numeric_features ≠ [] →
            ∃ xnum : List (List Val),
              mapRowsM (fun r => sc.transformRow (fo.numeric_features.map (getCell r)))
                  f9.rows = .ok xnum
              ∧ M = List.zipWith (· ++ ·) xnum
                  (f9.rows.map (fun r => fo.categorical_features.map (getCell r))))
        ∧ (fo.all_features = fo.numeric_features ++ fo.categorical_features →
            scaler = none →
            M = f9.rows.map (fun r => fo.all_features.map (getCell r))) := by
  rw [build_eq_assemble_of_preprocess] at h
  obtain ⟨f9, hpre, hasm⟩ := exceptBind_ok h
  have hlen9 : f9.rows.length = items.length := preprocess_ok_rows_length hpre
  obtain ⟨xnum, hxlen, hxrow, hM, hxplain, hxscaled⟩ :=
    assembleMatrix_ok_blocks fo scaler f9 hasm
  refine ⟨?_, ?_, f9, hpre, hlen9, ?_, ?_, ?_⟩
  · rw [hM]
    simp [List.length_zipWith, hxlen, hlen9]
  · rw [hM]
    apply zipWith_append_mem_length _ _ _ _ hxrow
    intro y hy
    obtain ⟨r, _, hr⟩ := List.mem_map.mp hy
    simp [← hr]
  · intro hcase
    rw [hM, hxplain hcase, zipWith_map_same]
  · intro sc hsc hne
    exact ⟨xnum, hxscaled sc hsc hne, hM⟩
  · intro hall hnone
    rw [hM, hxplain (Or.inl hnone), zipWith_map_same]
    apply List.map_congr_left
    intro r _
    rw [hall, List.map_append]

/-- C2 (amended): whenever `build_features_for_prediction` returns a matrix,
it has exactly `len(items)` rows and exactly
`len(numeric_features) + len(categorical_features)` columns, and its layout
is determined by the preprocessed frame `f9` the pipeline actually built:
when no scaler applies (none stored, or no numeric features), row `i` is
exactly the `numeric_features`-order selection from `f9`'s row `i` followed
by the `categorical_features`-order selection; when a scaler is present and
there are numeric features, the numeric sub-block is exactly the
`Scaler.transformRow` image of that same selection. The `all_features`
order is reproduced exactly when
`all_features = numeric_features ++ categorical_features`. -/
theorem c2_build_returns_rows_by_items_cols_by_blocks (E : Ext) (items : List RawItem)
    (encoders : Option EncTable) (fo : FeatureOrder) (scaler : Option Scaler)
    (M : List (List Val))
    (h : build_features_for_prediction E items encoders fo scaler = .ok M) :
    M.length = items.length
    ∧ (∀ row ∈ M, row.length = fo.numeric_features.length + fo.categorical_features.length)
    ∧ ∃ f9 : Frame,
        preprocessFrame E items encoders fo = .ok f9
        ∧ f9.rows.length = items.length
        ∧ ((scaler = none ∨ fo.numeric_features = []) →
            M = f9.rows.map (fun r => fo.numeric_features.map (getCell r)
                  ++ fo.categorical_features.map (getCell r)))
        ∧ (∀ sc, scaler = some sc → fo.numeric_features ≠ [] →
            ∃ xnum : List (List Val),
              mapRowsM (fun r => sc.transformRow (fo.numeric_features.map (getCell r)))
                  f9.rows = .ok xnum
              ∧ M = List.zipWith (· ++ ·) xnum
                  (f9.rows.map (fun r => fo.categorical_features.map (getCell r))))
        ∧ (fo.all_features = fo.numeric_features ++ fo.categorical_features →
            scaler = none →
            M = f9.rows.map (fun r => fo.all_features.map (getCell r))) :=
  build_ok_shape E items encoders fo scaler M h

/-- Counterexample for C2 as stated: with manifest
`{numeric: [A,B], categorical: [], all: [B,A]}` and the single item
`{A: 1, B: 2}`, the returned row is `[1, 2]` — the `numeric_features`
order — and not `[2, 1]`, the `all_features` order. -/
theorem c2_counterexample :
    build_features_for_prediction extNone [[("A", Val.num 1), ("B", Val.num 2)]]
        none ⟨["A", "B"], [], ["B", "A"]⟩ none = .ok [[Val.num 1, Val.num 2]]
    ∧ [[Val.num 1, Val.num 2]] ≠ [[Val.num 2, Val.num 1]] := by
  constructor
  · decide
  · decide

/-- Witness for C2's amended theorem at a concrete input, including the
no-scaler layout conclusion. -/
theorem c2_witness :
    ([[Val.num 1, Val.num 2]] : List (List Val)).length = 1
    ∧ (∀ row ∈ ([[Val.num 1, Val.num 2]] : List (List Val)), row.length = 2 + 0)
    ∧ ∃ f9 : Frame,
        preprocessFrame extNone [[("A", Val.num 1), ("B", Val.num 2)]] none
            ⟨["A", "B"], [], ["B", "A"]⟩ = .ok f9
        ∧ [[Val.num 1, Val.num 2]]
            = f9.rows.map (fun r =>
                ["A", "B"].map (getCell r) ++ ([] : List String).map (getCell r)) := by
  have h := c2_build_returns_rows_by_items_cols_by_blocks extNone
    [[("A", Val.num 1), ("B", Val.num 2)]] none ⟨["A", "B"], [], ["B", "A"]⟩ none
    [[Val.num 1, Val.num 2]] (by decide)
  refine ⟨h.1, h.2.1, ?_⟩
  obtain ⟨f9, hpre, _, hplain, _, _⟩ := h.2.2
  exact ⟨f9, hpre, hplain (Or.inl rfl)⟩

/-- Counterexample for C1 as stated: on the claim's exact inputs
(`feature_order = {numeric: [A,B], categorical: [C], all: [A,B,C]}`, scaler
mean `[5,5]` / scale `[1,1]`, encoder table `{C ↦ classes [x,y]}`, item
`{A: 7, B: 3, C: "x"}`) the returned single row is `[2.0, -2.0, "x"]` — the
string is passed through raw, not encoded to `0`, because the categorical
encoding block only handles the four hardcoded column names and `C` is not
one of them. -/
theorem c1_counterexample :
    build_features_for_prediction extNone
        [[("A", Val.num 7), ("B", Val.num 3), ("C", Val.str "x")]]
        (some [("C", ["x", "y"])]) ⟨["A", "B"], ["C"], ["A", "B", "C"]⟩
        (some ⟨[5, 5], [1, 1]⟩)
      = .ok [[Val.num 2, Val.num (-2), Val.str "x"]]
    ∧ Val.str "x" ≠ Val.num 0 := by
  constructor
  · have h : build_features_for_prediction extNone
        [[("A", Val.num 7), ("B", Val.num 3), ("C", Val.str "x")]]
        (some [("C", ["x", "y"])]) ⟨["A", "B"], ["C"], ["A", "B", "C"]⟩
        (some ⟨[5, 5], [1, 1]⟩)
        = assembleMatrix ⟨["A", "B"], ["C"], ["A", "B", "C"]⟩ (some ⟨[5, 5], [1, 1]⟩)
            ⟨["A", "B", "C"], [[("A", Val.num 7), ("B", Val.num 3), ("C", Val.str "x")]]⟩ := by
      rfl
    rw [h]
    simp only [assembleMatrix, mapRowsM, Scaler.transformRow, Scaler.transformRow.transRow,
      show getCell [("A", Val.num 7), ("B", Val.num 3), ("C", Val.str "x")] "A"
          = Val.num 7 from rfl,
      show getCell [("A", Val.num 7), ("B", Val.num 3), ("C", Val.str "x")] "B"
          = Val.num 3 from rfl,
      show getCell [("A", Val.num 7), ("B", Val.num 3), ("C", Val.str "x")] "C"
          = Val.str "x" from rfl]
    norm_num
    rfl
  · decide

/-- C1 (amended): the end-to-end scenario holds once the categorical column
is one the encoding block actually handles: with
`feature_order = {numeric: [A,B], categorical: [Genero], all: [A,B,Genero]}`,
scaler mean `[5,5]` / scale `[1,1]`, encoder table
`{Genero ↦ classes [x,y]}` (so `"x"` encodes to 0) and item
`{A: 7, B: 3, Genero: "x"}`, the returned single row is `[2.0, -2.0, 0]`. -/
theorem c1_amended_end_to_end :
    build_features_for_prediction extNone
        [[("A", Val.num 7), ("B", Val.num 3), ("Genero", Val.str "x")]]
        (some [("Genero", ["x", "y"])]) ⟨["A", "B"], ["Genero"], ["A", "B", "Genero"]⟩
        (some ⟨[5, 5], [1, 1]⟩)
      = .ok [[Val.num 2, Val.num (-2), Val.num 0]] := by
  have h : build_features_for_prediction extNone
      [[("A", Val.num 7), ("B", Val.num 3), ("Genero", Val.str "x")]]
      (some [("Genero", ["x", "y"])]) ⟨["A", "B"], ["Genero"], ["A", "B", "Genero"]⟩
      (some ⟨[5, 5], [1, 1]⟩)
      = assembleMatrix ⟨["A", "B"], ["Genero"], ["A", "B", "Genero"]⟩ (some ⟨[5, 5], [1, 1]⟩)
          ⟨["A", "B", "Genero"], [[("A", Val.num 7), ("B", Val.num 3), ("Genero", Val.num 0)]]⟩ := by
    rfl
  rw [h]
  simp only [assembleMatrix, mapRowsM, Scaler.transformRow, Scaler.transformRow.transRow,
    show getCell [("A", Val.num 7), ("B", Val.num 3), ("Genero", Val.num 0)] "A"
        = Val.num 7 from rfl,
    show getCell [("A", Val.num 7), ("B", Val.num 3), ("Genero", Val.num 0)] "B"
        = Val.num 3 from rfl,
    show getCell [("A", Val.num 7), ("B", Val.num 3), ("Genero", Val.num 0)] "Genero"
        = Val.num 0 from rfl]
  norm_num
  rfl

/-- Counterexample for C3 as stated: with the encoder table entirely absent
(`None`), a categorical cell holding the number `5` is *not* replaced by the
sentinel `-1` — the degraded branch runs
`pd.to_numeric(...).fillna(-1).astype(int)`, which keeps coercible values. -/
theorem c3_counterexample :
    build_features_for_prediction extNone [[("Genero", Val.num 5)]] none
        ⟨[], ["Genero"], ["Genero"]⟩ none = .ok [[Val.num 5]]
    ∧ Val.num 5 ≠ Val.num (-1) := by
  constructor
  · decide
  · decide

set_option maxHeartbeats 1600000 in
/-- C3 (amended): for every pipeline categorical column (`Genero`,
`ProfesorAM1`, `ColegioTecnico`, `AyudaFinanciera`) present in the encoder
table: a string value in the fitted vocabulary encodes to its integer code
(its index in `classes_`), an unseen string encodes to `-1`, and no error is
raised either way; encoding is deterministic (two rows with the same value
get the same code). When the encoder table is absent (`None`), a categorical
cell is `pd.to_numeric`-coerced, truncated to int, with `-1` only for
null/uncoercible values — numeric values keep their (truncated) value rather
than becoming `-1`. -/
theorem c3_amended_encoding (E : Ext) :
    (∀ c ∈ categoricalCols, ∀ (classes : List String) (s : String),
      build_features_for_prediction E [[(c, Val.str s)]]
          (some [(c, classes)]) ⟨[], [c], [c]⟩ none
        = .ok [[Val.num ((encodeVal classes s : Int) : ℚ)]])
    ∧ (∀ (classes : List String) (s : String), s ∈ classes →
        encodeVal classes s = classes.indexOf s)
    ∧ (∀ (classes : List String) (s : String), s ∉ classes →
        encodeVal classes s = -1)
    ∧ (∀ c ∈ categoricalCols, ∀ (classes : List String) (s : String),
        build_features_for_prediction E [[(c, Val.str s)], [(c, Val.str s)]]
            (some [(c, classes)]) ⟨[], [c], [c]⟩ none
          = .ok [[Val.num ((encodeVal classes s : Int) : ℚ)],
                 [Val.num ((encodeVal classes s : Int) : ℚ)]])
    ∧ (∀ c ∈ categoricalCols, ∀ v : Val,
        build_features_for_prediction E [[(c, v)]] none ⟨[], [c], [c]⟩ none
          = .ok [[Val.num ((((toNumeric E v).map ratTrunc).getD (-1) : Int) : ℚ)]]) := by
  refine ⟨?_, ?_, ?_, ?_, ?_⟩
  · intro c hc classes s
    fin_cases hc
    ·
      exact build_by_stages
        (show _ = (⟨["Genero"], [[("Genero", Val.str s)]]⟩ : Frame) from rfl)
        (show _ = (⟨["Genero"], [[("Genero", Val.str s)]]⟩ : Frame) from rfl)
        (show _ = (⟨["Genero"], [[("Genero", Val.str s)]]⟩ : Frame) from rfl)
        (show _ = (⟨["Genero"], [[("Genero", Val.str s)]]⟩ : Frame) from rfl)
        (show _ = Except.ok (⟨["Genero"], [[("Genero", Val.num (((ratTrunc ((encodeVal classes s : Int) : ℚ)) : Int) : ℚ))]]⟩ : Frame) from rfl)
        (show _ = (⟨["Genero"], [[("Genero", Val.num (((ratTrunc ((encodeVal classes s : Int) : ℚ)) : Int) : ℚ))]]⟩ : Frame) from rfl)
        (show _ = (⟨["Genero"], [[("Genero", Val.num (((ratTrunc ((encodeVal classes s : Int) : ℚ)) : Int) : ℚ))]]⟩ : Frame) from rfl)
        (show _ = (⟨["Genero"], [[("Genero", Val.num (((ratTrunc ((encodeVal classes s : Int) : ℚ)) : Int) : ℚ))]]⟩ : Frame) from rfl)
        (by conv_rhs => rw [← ratTrunc_intCast (encodeVal classes s)]
            rfl)
    ·
      exact build_by_stages
        (show _ = (⟨["ProfesorAM1"], [[("ProfesorAM1", Val.str s)]]⟩ : Frame) from rfl)
        (show _ = (⟨["ProfesorAM1"], [[("ProfesorAM1", Val.str s)]]⟩ : Frame) from rfl)
        (show _ = (⟨["ProfesorAM1"], [[("ProfesorAM1", Val.str s)]]⟩ : Frame) from rfl)
        (show _ = (⟨["ProfesorAM1"], [[("ProfesorAM1", Val.str s)]]⟩ : Frame) from rfl)
        (show _ = Except.ok (⟨["ProfesorAM1"], [[("ProfesorAM1", Val.num (((ratTrunc ((encodeVal classes s : Int) : ℚ)) : Int) : ℚ))]]⟩ : Frame) from rfl)
        (show _ = (⟨["ProfesorAM1"], [[("ProfesorAM1", Val.num (((ratTrunc ((encodeVal classes s : Int) : ℚ)) : Int) : ℚ))]]⟩ : Frame) from rfl)
        (show _ = (⟨["ProfesorAM1"], [[("ProfesorAM1", Val.num (((ratTrunc ((encodeVal classes s : Int) : ℚ)) : Int) : ℚ))]]⟩ : Frame) from rfl)
        (show _ = (⟨["ProfesorAM1"], [[("ProfesorAM1", Val.num (((ratTrunc ((encodeVal classes s : Int) : ℚ)) : Int) : ℚ))]]⟩ : Frame) from rfl)
        (by conv_rhs => rw [← ratTrunc_intCast (encodeVal classes s)]
            rfl)
    ·
      exact build_by_stages
        (show _ = (⟨["ColegioTecnico"], [[("ColegioTecnico", Val.str s)]]⟩ : Frame) from rfl)
        (show _ = (⟨["ColegioTecnico"], [[("ColegioTecnico", Val.str s)]]⟩ : Frame) from rfl)
        (show _ = (⟨["ColegioTecnico"], [[("ColegioTecnico", Val.str s)]]⟩ : Frame) from rfl)
        (show _ = (⟨["ColegioTecnico"], [[("ColegioTecnico", Val.str s)]]⟩ : Frame) from rfl)
        (show _ = Except.ok (⟨["ColegioTecnico"], [[("ColegioTecnico", Val.num (((ratTrunc ((encodeVal classes s : Int) : ℚ)) : Int) : ℚ))]]⟩ : Frame) from rfl)
        (show _ = (⟨["ColegioTecnico"], [[("ColegioTecnico", Val.num (((ratTrunc ((encodeVal classes s : Int) : ℚ)) : Int) : ℚ))]]⟩ : Frame) from rfl)
        (show _ = (⟨["ColegioTecnico"], [[("ColegioTecnico", Val.num (((ratTrunc ((encodeVal classes s : Int) : ℚ)) : Int) : ℚ))]]⟩ : Frame) from rfl)
        (show _ = (⟨["ColegioTecnico"], [[("ColegioTecnico", Val.num (((ratTrunc ((encodeVal classes s : Int) : ℚ)) : Int) : ℚ))]]⟩ : Frame) from rfl)
        (by conv_rhs => rw [← ratTrunc_intCast (encodeVal classes s)]
            rfl)
    ·
      exact build_by_stages
        (show _ = (⟨["AyudaFinanciera"], [[("AyudaFinanciera", Val.str s)]]⟩ : Frame) from rfl)
        (show _ = (⟨["AyudaFinanciera"], [[("AyudaFinanciera", Val.str s)]]⟩ : Frame) from rfl)
        (show _ = (⟨["AyudaFinanciera"], [[("AyudaFinanciera", Val.str s)]]⟩ : Frame) from rfl)
        (show _ = (⟨["AyudaFinanciera"], [[("AyudaFinanciera", Val.str s)]]⟩ : Frame) from rfl)
        (show _ = Except.ok (⟨["AyudaFinanciera"], [[("AyudaFinanciera", Val.num (((ratTrunc ((encodeVal classes s : Int) : ℚ)) : Int) : ℚ))]]⟩ : Frame) from rfl)
        (show _ = (⟨["AyudaFinanciera"], [[("AyudaFinanciera", Val.num (((ratTrunc ((encodeVal classes s : Int) : ℚ)) : Int) : ℚ))]]⟩ : Frame) from rfl)
        (show _ = (⟨["AyudaFinanciera"], [[("AyudaFinanciera", Val.num (((ratTrunc ((encodeVal classes s : Int) : ℚ)) : Int) : ℚ))]]⟩ : Frame) from rfl)
        (show _ = (⟨["AyudaFinanciera"], [[("AyudaFinanciera", Val.num (((ratTrunc ((encodeVal classes s : Int) : ℚ)) : Int) : ℚ))]]⟩ : Frame) from rfl)
        (by conv_rhs => rw [← ratTrunc_intCast (encodeVal classes s)]
            rfl)
  · intro classes s hs
    unfold encodeVal
    rw [if_pos (by simpa using hs)]
  · intro classes s hs
    unfold encodeVal
    rw [if_neg (by simpa using hs)]
  · intro c hc classes s
    fin_cases hc
    ·
      exact build_by_stages
        (show _ = (⟨["Genero", "Genero"], [[("Genero", Val.str s)], [("Genero", Val.str s)]]⟩ : Frame) from rfl)
        (show _ = (⟨["Genero", "Genero"], [[("Genero", Val.str s)], [("Genero", Val.str s)]]⟩ : Frame) from rfl)
        (show _ = (⟨["Genero", "Genero"], [[("Genero", Val.str s)], [("Genero", Val.str s)]]⟩ : Frame) from rfl)
        (show _ = (⟨["Genero", "Genero"], [[("Genero", Val.str s)], [("Genero", Val.str s)]]⟩ : Frame) from rfl)
        (show _ = Except.ok (⟨["Genero", "Genero"], [[("Genero", Val.num (((ratTrunc ((encodeVal classes s : Int) : ℚ)) : Int) : ℚ))], [("Genero", Val.num (((ratTrunc ((encodeVal classes s : Int) : ℚ)) : Int) : ℚ))]]⟩ : Frame) from rfl)
        (show _ = (⟨["Genero", "Genero"], [[("Genero", Val.num (((ratTrunc ((encodeVal classes s : Int) : ℚ)) : Int) : ℚ))], [("Genero", Val.num (((ratTrunc ((encodeVal classes s : Int) : ℚ)) : Int) : ℚ))]]⟩ : Frame) from rfl)
        (show _ = (⟨["Genero", "Genero"], [[("Genero", Val.num (((ratTrunc ((encodeVal classes s : Int) : ℚ)) : Int) : ℚ))], [("Genero", Val.num (((ratTrunc ((encodeVal classes s : Int) : ℚ)) : Int) : ℚ))]]⟩ : Frame) from rfl)
        (show _ = (⟨["Genero", "Genero"], [[("Genero", Val.num (((ratTrunc ((encodeVal classes s : Int) : ℚ)) : Int) : ℚ))], [("Genero", Val.num (((ratTrunc ((encodeVal classes s : Int) : ℚ)) : Int) : ℚ))]]⟩ : Frame) from rfl)
        (by conv_rhs => rw [← ratTrunc_intCast (encodeVal classes s)]
            rfl)
    ·
      exact build_by_stages
        (show _ = (⟨["ProfesorAM1", "ProfesorAM1"], [[("ProfesorAM1", Val.str s)], [("ProfesorAM1", Val.str s)]]⟩ : Frame) from rfl)
        (show _ = (⟨["ProfesorAM1", "ProfesorAM1"], [[("ProfesorAM1", Val.str s)], [("ProfesorAM1", Val.str s)]]⟩ : Frame) from rfl)
        (show _ = (⟨["ProfesorAM1", "ProfesorAM1"], [[("ProfesorAM1", Val.str s)], [("ProfesorAM1", Val.str s)]]⟩ : Frame) from rfl)
        (show _ = (⟨["ProfesorAM1", "ProfesorAM1"], [[("ProfesorAM1", Val.str s)], [("ProfesorAM1", Val.str s)]]⟩ : Frame) from rfl)
        (show _ = Except.ok (⟨["ProfesorAM1", "ProfesorAM1"], [[("ProfesorAM1", Val.num (((ratTrunc ((encodeVal classes s : Int) : ℚ)) : Int) : ℚ))], [("ProfesorAM1", Val.num (((ratTrunc ((encodeVal classes s : Int) : ℚ)) : Int) : ℚ))]]⟩ : Frame) from rfl)
        (show _ = (⟨["ProfesorAM1", "ProfesorAM1"], [[("ProfesorAM1", Val.num (((ratTrunc ((encodeVal classes s : Int) : ℚ)) : Int) : ℚ))], [("ProfesorAM1", Val.num (((ratTrunc ((encodeVal classes s : Int) : ℚ)) : Int) : ℚ))]]⟩ : Frame) from rfl)
        (show _ = (⟨["ProfesorAM1", "ProfesorAM1"], [[("ProfesorAM1", Val.num (((ratTrunc ((encodeVal classes s : Int) : ℚ)) : Int) : ℚ))], [("ProfesorAM1", Val.num (((ratTrunc ((encodeVal classes s : Int) : ℚ)) : Int) : ℚ))]]⟩ : Frame) from rfl)
        (show _ = (⟨["ProfesorAM1", "ProfesorAM1"], [[("ProfesorAM1", Val.num (((ratTrunc ((encodeVal classes s : Int) : ℚ)) : Int) : ℚ))], [("ProfesorAM1", Val.num (((ratTrunc ((encodeVal classes s : Int) : ℚ)) : Int) : ℚ))]]⟩ : Frame) from rfl)
        (by conv_rhs => rw [← ratTrunc_intCast (encodeVal classes s)]
            rfl)
    ·
      exact build_by_stages
        (show _ = (⟨["ColegioTecnico", "ColegioTecnico"], [[("ColegioTecnico", Val.str s)], [("ColegioTecnico", Val.str s)]]⟩ : Frame) from rfl)
        (show _ = (⟨["ColegioTecnico", "ColegioTecnico"], [[("ColegioTecnico", Val.str s)], [("ColegioTecnico", Val.str s)]]⟩ : Frame) from rfl)
        (show _ = (⟨["ColegioTecnico", "ColegioTecnico"], [[("ColegioTecnico", Val.str s)], [("ColegioTecnico", Val.str s)]]⟩ : Frame) from rfl)
        (show _ = (⟨["ColegioTecnico", "ColegioTecnico"], [[("ColegioTecnico", Val.str s)], [("ColegioTecnico", Val.str s)]]⟩ : Frame) from rfl)
        (show _ = Except.ok (⟨["ColegioTecnico", "ColegioTecnico"], [[("ColegioTecnico", Val.num (((ratTrunc ((encodeVal classes s : Int) : ℚ)) : Int) : ℚ))], [("ColegioTecnico", Val.num (((ratTrunc ((encodeVal classes s : Int) : ℚ)) : Int) : ℚ))]]⟩ : Frame) from rfl)
        (show _ = (⟨["ColegioTecnico", "ColegioTecnico"], [[("ColegioTecnico", Val.num (((ratTrunc ((encodeVal classes s : Int) : ℚ)) : Int) : ℚ))], [("ColegioTecnico", Val.num (((ratTrunc ((encodeVal classes s : Int) : ℚ)) : Int) : ℚ))]]⟩ : Frame) from rfl)
        (show _ = (⟨["ColegioTecnico", "ColegioTecnico"], [[("ColegioTecnico", Val.num (((ratTrunc ((encodeVal classes s : Int) : ℚ)) : Int) : ℚ))], [("ColegioTecnico", Val.num (((ratTrunc ((encodeVal classes s : Int) : ℚ)) : Int) : ℚ))]]⟩ : Frame) from rfl)
        (show _ = (⟨["ColegioTecnico", "ColegioTecnico"], [[("ColegioTecnico", Val.num (((ratTrunc ((encodeVal classes s : Int) : ℚ)) : Int) : ℚ))], [("ColegioTecnico", Val.num (((ratTrunc ((encodeVal classes s : Int) : ℚ)) : Int) : ℚ))]]⟩ : Frame) from rfl)
        (by conv_rhs => rw [← ratTrunc_intCast (encodeVal classes s)]
            rfl)
    ·
      exact build_by_stages
        (show _ = (⟨["AyudaFinanciera", "AyudaFinanciera"], [[("AyudaFinanciera", Val.str s)], [("AyudaFinanciera", Val.str s)]]⟩ : Frame) from rfl)
        (show _ = (⟨["AyudaFinanciera", "AyudaFinanciera"], [[("AyudaFinanciera", Val.str s)], [("AyudaFinanciera", Val.str s)]]⟩ : Frame) from rfl)
        (show _ = (⟨["AyudaFinanciera", "AyudaFinanciera"], [[("AyudaFinanciera", Val.str s)], [("AyudaFinanciera", Val.str s)]]⟩ : Frame) from rfl)
        (show _ = (⟨["AyudaFinanciera", "AyudaFinanciera"], [[("AyudaFinanciera", Val.str s)], [("AyudaFinanciera", Val.str s)]]⟩ : Frame) from rfl)
        (show _ = Except.ok (⟨["AyudaFinanciera", "AyudaFinanciera"], [[("AyudaFinanciera", Val.num (((ratTrunc ((encodeVal classes s : Int) : ℚ)) : Int) : ℚ))], [("AyudaFinanciera", Val.num (((ratTrunc ((encodeVal classes s : Int) : ℚ)) : Int) : ℚ))]]⟩ : Frame) from rfl)
        (show _ = (⟨["AyudaFinanciera", "AyudaFinanciera"], [[("AyudaFinanciera", Val.num (((ratTrunc ((encodeVal classes s : Int) : ℚ)) : Int) : ℚ))], [("AyudaFinanciera", Val.num (((ratTrunc ((encodeVal classes s : Int) : ℚ)) : Int) : ℚ))]]⟩ : Frame) from rfl)
        (show _ = (⟨["AyudaFinanciera", "AyudaFinanciera"], [[("AyudaFinanciera", Val.num (((ratTrunc ((encodeVal classes s : Int) : ℚ)) : Int) : ℚ))], [("AyudaFinanciera", Val.num (((ratTrunc ((encodeVal classes s : Int) : ℚ)) : Int) : ℚ))]]⟩ : Frame) from rfl)
        (show _ = (⟨["AyudaFinanciera", "AyudaFinanciera"], [[("AyudaFinanciera", Val.num (((ratTrunc ((encodeVal classes s : Int) : ℚ)) : Int) : ℚ))], [("AyudaFinanciera", Val.num (((ratTrunc ((encodeVal classes s : Int) : ℚ)) : Int) : ℚ))]]⟩ : Frame) from rfl)
        (by conv_rhs => rw [← ratTrunc_intCast (encodeVal classes s)]
            rfl)
  · intro c hc v
    fin_cases hc
    ·
      exact build_by_stages
        (show _ = (⟨["Genero"], [[("Genero", v)]]⟩ : Frame) from rfl)
        (show _ = (⟨["Genero"], [[("Genero", v)]]⟩ : Frame) from rfl)
        (show _ = (⟨["Genero"], [[("Genero", v)]]⟩ : Frame) from rfl)
        (show _ = (⟨["Genero"], [[("Genero", v)]]⟩ : Frame) from rfl)
        (show _ = Except.ok (⟨["Genero"], [[("Genero", Val.num ((((toNumeric E v).map ratTrunc).getD (-1) : Int) : ℚ))]]⟩ : Frame) from rfl)
        (show _ = (⟨["Genero"], [[("Genero", Val.num ((((toNumeric E v).map ratTrunc).getD (-1) : Int) : ℚ))]]⟩ : Frame) from rfl)
        (show _ = (⟨["Genero"], [[("Genero", Val.num ((((toNumeric E v).map ratTrunc).getD (-1) : Int) : ℚ))]]⟩ : Frame) from rfl)
        (show _ = (⟨["Genero"], [[("Genero", Val.num ((((toNumeric E v).map ratTrunc).getD (-1) : Int) : ℚ))]]⟩ : Frame) from rfl)
        rfl
    ·
      exact build_by_stages
        (show _ = (⟨["ProfesorAM1"], [[("ProfesorAM1", v)]]⟩ : Frame) from rfl)
        (show _ = (⟨["ProfesorAM1"], [[("ProfesorAM1", v)]]⟩ : Frame) from rfl)
        (show _ = (⟨["ProfesorAM1"], [[("ProfesorAM1", v)]]⟩ : Frame) from rfl)
        (show _ = (⟨["ProfesorAM1"], [[("ProfesorAM1", v)]]⟩ : Frame) from rfl)
        (show _ = Except.ok (⟨["ProfesorAM1"], [[("ProfesorAM1", Val.num ((((toNumeric E v).map ratTrunc).getD (-1) : Int) : ℚ))]]⟩ : Frame) from rfl)
        (show _ = (⟨["ProfesorAM1"], [[("ProfesorAM1", Val.num ((((toNumeric E v).map ratTrunc).getD (-1) : Int) : ℚ))]]⟩ : Frame) from rfl)
        (show _ = (⟨["ProfesorAM1"], [[("ProfesorAM1", Val.num ((((toNumeric E v).map ratTrunc).getD (-1) : Int) : ℚ))]]⟩ : Frame) from rfl)
        (show _ = (⟨["ProfesorAM1"], [[("ProfesorAM1", Val.num ((((toNumeric E v).map ratTrunc).getD (-1) : Int) : ℚ))]]⟩ : Frame) from rfl)
        rfl
    ·
      exact build_by_stages
        (show _ = (⟨["ColegioTecnico"], [[("ColegioTecnico", v)]]⟩ : Frame) from rfl)
        (show _ = (⟨["ColegioTecnico"], [[("ColegioTecnico", v)]]⟩ : Frame) from rfl)
        (show _ = (⟨["ColegioTecnico"], [[("ColegioTecnico", v)]]⟩ : Frame) from rfl)
        (show _ = (⟨["ColegioTecnico"], [[("ColegioTecnico", v)]]⟩ : Frame) from rfl)
        (show _ = Except.ok (⟨["ColegioTecnico"], [[("ColegioTecnico", Val.num ((((toNumeric E v).map ratTrunc).getD (-1) : Int) : ℚ))]]⟩ : Frame) from rfl)
        (show _ = (⟨["ColegioTecnico"], [[("ColegioTecnico", Val.num ((((toNumeric E v).map ratTrunc).getD (-1) : Int) : ℚ))]]⟩ : Frame) from rfl)
        (show _ = (⟨["ColegioTecnico"], [[("ColegioTecnico", Val.num ((((toNumeric E v).map ratTrunc).getD (-1) : Int) : ℚ))]]⟩ : Frame) from rfl)
        (show _ = (⟨["ColegioTecnico"], [[("ColegioTecnico", Val.num ((((toNumeric E v).map ratTrunc).getD (-1) : Int) : ℚ))]]⟩ : Frame) from rfl)
        rfl
    ·
      exact build_by_stages
        (show _ = (⟨["AyudaFinanciera"], [[("AyudaFinanciera", v)]]⟩ : Frame) from rfl)
        (show _ = (⟨["AyudaFinanciera"], [[("AyudaFinanciera", v)]]⟩ : Frame) from rfl)
        (show _ = (⟨["AyudaFinanciera"], [[("AyudaFinanciera", v)]]⟩ : Frame) from rfl)
        (show _ = (⟨["AyudaFinanciera"], [[("AyudaFinanciera", v)]]⟩ : Frame) from rfl)
        (show _ = Except.ok (⟨["AyudaFinanciera"], [[("AyudaFinanciera", Val.num ((((toNumeric E v).map ratTrunc).getD (-1) : Int) : ℚ))]]⟩ : Frame) from rfl)
        (show _ = (⟨["AyudaFinanciera"], [[("AyudaFinanciera", Val.num ((((toNumeric E v).map ratTrunc).getD (-1) : Int) : ℚ))]]⟩ : Frame) from rfl)
        (show _ = (⟨["AyudaFinanciera"], [[("AyudaFinanciera", Val.num ((((toNumeric E v).map ratTrunc).getD (-1) : Int) : ℚ))]]⟩ : Frame) from rfl)
        (show _ = (⟨["AyudaFinanciera"], [[("AyudaFinanciera", Val.num ((((toNumeric E v).map ratTrunc).getD (-1) : Int) : ℚ))]]⟩ : Frame) from rfl)
        rfl

/-- Witness for C3's amended theorem at concrete inputs: `"x"` in vocabulary
`[x, y]` encodes to its code 0; `"zz"` is unseen and encodes to `-1`; with
an absent encoder table a null cell becomes `-1`. -/
theorem c3_witness :
    build_features_for_prediction extNone [[("Genero", Val.str "x")]]
        (some [("Genero", ["x", "y"])]) ⟨[], ["Genero"], ["Genero"]⟩ none
      = .ok [[Val.num ((encodeVal ["x", "y"] "x" : Int) : ℚ)]]
    ∧ encodeVal ["x", "y"] "x" = ((["x", "y"].indexOf "x" : Nat) : Int)
    ∧ encodeVal ["x", "y"] "zz" = -1
    ∧ build_features_for_prediction extNone [[("Genero", Val.null)]] none
        ⟨[], ["Genero"], ["Genero"]⟩ none
      = .ok [[Val.num ((((toNumeric extNone Val.null).map ratTrunc).getD (-1) : Int) : ℚ)]] :=
  ⟨(c3_amended_encoding extNone).1 "Genero" (by decide) ["x", "y"] "x",
   (c3_amended_encoding extNone).2.1 ["x", "y"] "x" (by decide),
   (c3_amended_encoding extNone).2.2.1 ["x", "y"] "zz" (by decide),
   (c3_amended_encoding extNone).2.2.2.2 "Genero" (by decide) Val.null⟩

/-- Counterexample for C4 as stated: a single-item batch supplying
`Parcial1AM1 = 7.0` but missing the `Recuperatorio1AM1` key entirely gets
`0.0` in the retake slot, not `7.0` — with no item carrying the key, the
retake column does not exist in the batch DataFrame, the
`"Recuperatorio1AM1" in df.columns` guard skips the imputation rule, and the
slot is synthesized as the numeric default `0.0`. -/
theorem c4_counterexample :
    build_features_for_prediction extNone [[("Parcial1AM1", Val.num 7)]] none
        ⟨["Parcial1AM1", "Recuperatorio1AM1"], [], ["Parcial1AM1", "Recuperatorio1AM1"]⟩ none
      = .ok [[Val.num 7, Val.num 0]]
    ∧ Val.num 0 ≠ Val.num 7 := by
  constructor
  · decide
  · decide

set_option maxHeartbeats 1600000 in
/-- C4 (amended): the imputation rule fires when the retake column exists in
the batch — here, the item carries the key with a null value: a row whose
`Recuperatorio1AM1` is null while `Parcial1AM1` is a number `q` ends with
`q` in the retake slot; symmetrically and independently for
`Recuperatorio2AM1`/`Parcial2AM1`. (The counterexample shows the rule does
NOT fire when no item in the batch carries the retake key at all.) -/
theorem c4_amended_imputation (E : Ext) (q : ℚ) :
    build_features_for_prediction E [[("Recuperatorio1AM1", Val.null), ("Parcial1AM1", Val.num q)]]
        none ⟨["Parcial1AM1", "Recuperatorio1AM1"], [],
              ["Parcial1AM1", "Recuperatorio1AM1"]⟩ none
      = .ok [[Val.num q, Val.num q]]
    ∧ build_features_for_prediction E [[("Recuperatorio2AM1", Val.null), ("Parcial2AM1", Val.num q)]]
        none ⟨["Parcial2AM1", "Recuperatorio2AM1"], [],
              ["Parcial2AM1", "Recuperatorio2AM1"]⟩ none
      = .ok [[Val.num q, Val.num q]] := by
  constructor
  · exact build_by_stages
      (show _ = (⟨["Recuperatorio1AM1", "Parcial1AM1"], [[("Recuperatorio1AM1", Val.null), ("Parcial1AM1", Val.num q)]]⟩ : Frame) from rfl)
      (show _ = (⟨["Recuperatorio1AM1", "Parcial1AM1"], [[("Recuperatorio1AM1", Val.num q), ("Parcial1AM1", Val.num q)]]⟩ : Frame) from rfl)
      (show _ = (⟨["Recuperatorio1AM1", "Parcial1AM1"], [[("Recuperatorio1AM1", Val.num q), ("Parcial1AM1", Val.num q)]]⟩ : Frame) from rfl)
      (show _ = (⟨["Recuperatorio1AM1", "Parcial1AM1"], [[("Recuperatorio1AM1", Val.num q), ("Parcial1AM1", Val.num q)]]⟩ : Frame) from rfl)
      (show _ = Except.ok (⟨["Recuperatorio1AM1", "Parcial1AM1"], [[("Recuperatorio1AM1", Val.num q), ("Parcial1AM1", Val.num q)]]⟩ : Frame) from rfl)
      (show _ = (⟨["Recuperatorio1AM1", "Parcial1AM1"], [[("Recuperatorio1AM1", Val.num q), ("Parcial1AM1", Val.num q)]]⟩ : Frame) from rfl)
      (show _ = (⟨["Recuperatorio1AM1", "Parcial1AM1"], [[("Recuperatorio1AM1", Val.num q), ("Parcial1AM1", Val.num q)]]⟩ : Frame) from rfl)
      (show _ = (⟨["Recuperatorio1AM1", "Parcial1AM1"], [[("Recuperatorio1AM1", Val.num q), ("Parcial1AM1", Val.num q)]]⟩ : Frame) from rfl)
      rfl
  · exact build_by_stages
      (show _ = (⟨["Recuperatorio2AM1", "Parcial2AM1"], [[("Recuperatorio2AM1", Val.null), ("Parcial2AM1", Val.num q)]]⟩ : Frame) from rfl)
      (show _ = (⟨["Recuperatorio2AM1", "Parcial2AM1"], [[("Recuperatorio2AM1", Val.null), ("Parcial2AM1", Val.num q)]]⟩ : Frame) from rfl)
      (show _ = (⟨["Recuperatorio2AM1", "Parcial2AM1"], [[("Recuperatorio2AM1", Val.num q), ("Parcial2AM1", Val.num q)]]⟩ : Frame) from rfl)
      (show _ = (⟨["Recuperatorio2AM1", "Parcial2AM1"], [[("Recuperatorio2AM1", Val.num q), ("Parcial2AM1", Val.num q)]]⟩ : Frame) from rfl)
      (show _ = Except.ok (⟨["Recuperatorio2AM1", "Parcial2AM1"], [[("Recuperatorio2AM1", Val.num q), ("Parcial2AM1", Val.num q)]]⟩ : Frame) from rfl)
      (show _ = (⟨["Recuperatorio2AM1", "Parcial2AM1"], [[("Recuperatorio2AM1", Val.num q), ("Parcial2AM1", Val.num q)]]⟩ : Frame) from rfl)
      (show _ = (⟨["Recuperatorio2AM1", "Parcial2AM1"], [[("Recuperatorio2AM1", Val.num q), ("Parcial2AM1", Val.num q)]]⟩ : Frame) from rfl)
      (show _ = (⟨["Recuperatorio2AM1", "Parcial2AM1"], [[("Recuperatorio2AM1", Val.num q), ("Parcial2AM1", Val.num q)]]⟩ : Frame) from rfl)
      rfl

set_option maxHeartbeats 1600000 in
/-- C10: for every pipeline categorical column, an item whose value for
that column is null — or missing the key outright — gets the sentinel `-1`
in that column of the feature vector, identically to an unseen category and
without raising: with the column in a truthy encoder table the null cell
skips encoding and is `fillna(-1)`-ed (also in a batch where another row
holds an encodable value), and with the encoder table absent the null cell
fails numeric coercion and is `fillna(-1)`-ed. -/
theorem c10_null_categorical_to_minus_one (E : Ext) :
    (∀ c ∈ categoricalCols, ∀ classes : List String,
      build_features_for_prediction E [[(c, Val.null)]]
          (some [(c, classes)]) ⟨[], [c], [c]⟩ none = .ok [[Val.num (-1)]])
    ∧ (∀ c ∈ categoricalCols, ∀ classes : List String,
        build_features_for_prediction E [([] : RawItem)]
            (some [(c, classes)]) ⟨[], [c], [c]⟩ none = .ok [[Val.num (-1)]])
    ∧ (∀ c ∈ categoricalCols, ∀ (classes : List String) (s : String),
        build_features_for_prediction E [[(c, Val.null)], [(c, Val.str s)]]
            (some [(c, classes)]) ⟨[], [c], [c]⟩ none
          = .ok [[Val.num (-1)], [Val.num ((encodeVal classes s : Int) : ℚ)]])
    ∧ (∀ c ∈ categoricalCols,
        build_features_for_prediction E [[(c, Val.null)]] none ⟨[], [c], [c]⟩ none
          = .ok [[Val.num (-1)]]) := by
  refine ⟨?_, ?_, ?_, ?_⟩
  · intro c hc classes
    fin_cases hc
    · conv_rhs => rw [← ratTrunc_neg_one]
      exact build_by_stages
        (show _ = (⟨["Genero"], [[("Genero", Val.null)]]⟩ : Frame) from rfl)
        (show _ = (⟨["Genero"], [[("Genero", Val.null)]]⟩ : Frame) from rfl)
        (show _ = (⟨["Genero"], [[("Genero", Val.null)]]⟩ : Frame) from rfl)
        (show _ = (⟨["Genero"], [[("Genero", Val.null)]]⟩ : Frame) from rfl)
        (show _ = Except.ok (⟨["Genero"], [[("Genero", Val.num ((ratTrunc (-1 : ℚ) : Int) : ℚ))]]⟩ : Frame) from rfl)
        (show _ = (⟨["Genero"], [[("Genero", Val.num ((ratTrunc (-1 : ℚ) : Int) : ℚ))]]⟩ : Frame) from rfl)
        (show _ = (⟨["Genero"], [[("Genero", Val.num ((ratTrunc (-1 : ℚ) : Int) : ℚ))]]⟩ : Frame) from rfl)
        (show _ = (⟨["Genero"], [[("Genero", Val.num ((ratTrunc (-1 : ℚ) : Int) : ℚ))]]⟩ : Frame) from rfl)
        rfl
    · conv_rhs => rw [← ratTrunc_neg_one]
      exact build_by_stages
        (show _ = (⟨["ProfesorAM1"], [[("ProfesorAM1", Val.null)]]⟩ : Frame) from rfl)
        (show _ = (⟨["ProfesorAM1"], [[("ProfesorAM1", Val.null)]]⟩ : Frame) from rfl)
        (show _ = (⟨["ProfesorAM1"], [[("ProfesorAM1", Val.null)]]⟩ : Frame) from rfl)
        (show _ = (⟨["ProfesorAM1"], [[("ProfesorAM1", Val.null)]]⟩ : Frame) from rfl)
        (show _ = Except.ok (⟨["ProfesorAM1"], [[("ProfesorAM1", Val.num ((ratTrunc (-1 : ℚ) : Int) : ℚ))]]⟩ : Frame) from rfl)
        (show _ = (⟨["ProfesorAM1"], [[("ProfesorAM1", Val.num ((ratTrunc (-1 : ℚ) : Int) : ℚ))]]⟩ : Frame) from rfl)
        (show _ = (⟨["ProfesorAM1"], [[("ProfesorAM1", Val.num ((ratTrunc (-1 : ℚ) : Int) : ℚ))]]⟩ : Frame) from rfl)
        (show _ = (⟨["ProfesorAM1"], [[("ProfesorAM1", Val.num ((ratTrunc (-1 : ℚ) : Int) : ℚ))]]⟩ : Frame) from rfl)
        rfl
    · conv_rhs => rw [← ratTrunc_neg_one]
      exact build_by_stages
        (show _ = (⟨["ColegioTecnico"], [[("ColegioTecnico", Val.null)]]⟩ : Frame) from rfl)
        (show _ = (⟨["ColegioTecnico"], [[("ColegioTecnico", Val.null)]]⟩ : Frame) from rfl)
        (show _ = (⟨["ColegioTecnico"], [[("ColegioTecnico", Val.null)]]⟩ : Frame) from rfl)
        (show _ = (⟨["ColegioTecnico"], [[("ColegioTecnico", Val.null)]]⟩ : Frame) from rfl)
        (show _ = Except.ok (⟨["ColegioTecnico"], [[("ColegioTecnico", Val.num ((ratTrunc (-1 : ℚ) : Int) : ℚ))]]⟩ : Frame) from rfl)
        (show _ = (⟨["ColegioTecnico"], [[("ColegioTecnico", Val.num ((ratTrunc (-1 : ℚ) : Int) : ℚ))]]⟩ : Frame) from rfl)
        (show _ = (⟨["ColegioTecnico"], [[("ColegioTecnico", Val.num ((ratTrunc (-1 : ℚ) : Int) : ℚ))]]⟩ : Frame) from rfl)
        (show _ = (⟨["ColegioTecnico"], [[("ColegioTecnico", Val.num ((ratTrunc (-1 : ℚ) : Int) : ℚ))]]⟩ : Frame) from rfl)
        rfl
    · conv_rhs => rw [← ratTrunc_neg_one]
      exact build_by_stages
        (show _ = (⟨["AyudaFinanciera"], [[("AyudaFinanciera", Val.null)]]⟩ : Frame) from rfl)
        (show _ = (⟨["AyudaFinanciera"], [[("AyudaFinanciera", Val.null)]]⟩ : Frame) from rfl)
        (show _ = (⟨["AyudaFinanciera"], [[("AyudaFinanciera", Val.null)]]⟩ : Frame) from rfl)
        (show _ = (⟨["AyudaFinanciera"], [[("AyudaFinanciera", Val.null)]]⟩ : Frame) from rfl)
        (show _ = Except.ok (⟨["AyudaFinanciera"], [[("AyudaFinanciera", Val.num ((ratTrunc (-1 : ℚ) : Int) : ℚ))]]⟩ : Frame) from rfl)
        (show _ = (⟨["AyudaFinanciera"], [[("AyudaFinanciera", Val.num ((ratTrunc (-1 : ℚ) : Int) : ℚ))]]⟩ : Frame) from rfl)
        (show _ = (⟨["AyudaFinanciera"], [[("AyudaFinanciera", Val.num ((ratTrunc (-1 : ℚ) : Int) : ℚ))]]⟩ : Frame) from rfl)
        (show _ = (⟨["AyudaFinanciera"], [[("AyudaFinanciera", Val.num ((ratTrunc (-1 : ℚ) : Int) : ℚ))]]⟩ : Frame) from rfl)
        rfl
  · intro c hc classes
    fin_cases hc
    ·
      exact build_by_stages
        (show _ = (⟨[], [([] : RawItem)]⟩ : Frame) from rfl)
        (show _ = (⟨[], [([] : RawItem)]⟩ : Frame) from rfl)
        (show _ = (⟨[], [([] : RawItem)]⟩ : Frame) from rfl)
        (show _ = (⟨[], [([] : RawItem)]⟩ : Frame) from rfl)
        (show _ = Except.ok (⟨[], [([] : RawItem)]⟩ : Frame) from rfl)
        (show _ = (⟨[], [([] : RawItem)]⟩ : Frame) from rfl)
        (show _ = (⟨[], [([] : RawItem)]⟩ : Frame) from rfl)
        (show _ = (⟨["Genero"], [[("Genero", Val.num (-1))]]⟩ : Frame) from rfl)
        rfl
    ·
      exact build_by_stages
        (show _ = (⟨[], [([] : RawItem)]⟩ : Frame) from rfl)
        (show _ = (⟨[], [([] : RawItem)]⟩ : Frame) from rfl)
        (show _ = (⟨[], [([] : RawItem)]⟩ : Frame) from rfl)
        (show _ = (⟨[], [([] : RawItem)]⟩ : Frame) from rfl)
        (show _ = Except.ok (⟨[], [([] : RawItem)]⟩ : Frame) from rfl)
        (show _ = (⟨[], [([] : RawItem)]⟩ : Frame) from rfl)
        (show _ = (⟨[], [([] : RawItem)]⟩ : Frame) from rfl)
        (show _ = (⟨["ProfesorAM1"], [[("ProfesorAM1", Val.num (-1))]]⟩ : Frame) from rfl)
        rfl
    ·
      exact build_by_stages
        (show _ = (⟨[], [([] : RawItem)]⟩ : Frame) from rfl)
        (show _ = (⟨[], [([] : RawItem)]⟩ : Frame) from rfl)
        (show _ = (⟨[], [([] : RawItem)]⟩ : Frame) from rfl)
        (show _ = (⟨[], [([] : RawItem)]⟩ : Frame) from rfl)
        (show _ = Except.ok (⟨[], [([] : RawItem)]⟩ : Frame) from rfl)
        (show _ = (⟨[], [([] : RawItem)]⟩ : Frame) from rfl)
        (show _ = (⟨[], [([] : RawItem)]⟩ : Frame) from rfl)
        (show _ = (⟨["ColegioTecnico"], [[("ColegioTecnico", Val.num (-1))]]⟩ : Frame) from rfl)
        rfl
    ·
      exact build_by_stages
        (show _ = (⟨[], [([] : RawItem)]⟩ : Frame) from rfl)
        (show _ = (⟨[], [([] : RawItem)]⟩ : Frame) from rfl)
        (show _ = (⟨[], [([] : RawItem)]⟩ : Frame) from rfl)
        (show _ = (⟨[], [([] : RawItem)]⟩ : Frame) from rfl)
        (show _ = Except.ok (⟨[], [([] : RawItem)]⟩ : Frame) from rfl)
        (show _ = (⟨[], [([] : RawItem)]⟩ : Frame) from rfl)
        (show _ = (⟨[], [([] : RawItem)]⟩ : Frame) from rfl)
        (show _ = (⟨["AyudaFinanciera"], [[("AyudaFinanciera", Val.num (-1))]]⟩ : Frame) from rfl)
        rfl
  · intro c hc classes s
    fin_cases hc
    · conv_rhs => rw [← ratTrunc_neg_one, ← ratTrunc_intCast (encodeVal classes s)]
      exact build_by_stages
        (show _ = (⟨["Genero", "Genero"], [[("Genero", Val.null)], [("Genero", Val.str s)]]⟩ : Frame) from rfl)
        (show _ = (⟨["Genero", "Genero"], [[("Genero", Val.null)], [("Genero", Val.str s)]]⟩ : Frame) from rfl)
        (show _ = (⟨["Genero", "Genero"], [[("Genero", Val.null)], [("Genero", Val.str s)]]⟩ : Frame) from rfl)
        (show _ = (⟨["Genero", "Genero"], [[("Genero", Val.null)], [("Genero", Val.str s)]]⟩ : Frame) from rfl)
        (show _ = Except.ok (⟨["Genero", "Genero"], [[("Genero", Val.num ((ratTrunc (-1 : ℚ) : Int) : ℚ))], [("Genero", Val.num (((ratTrunc ((encodeVal classes s : Int) : ℚ)) : Int) : ℚ))]]⟩ : Frame) from rfl)
        (show _ = (⟨["Genero", "Genero"], [[("Genero", Val.num ((ratTrunc (-1 : ℚ) : Int) : ℚ))], [("Genero", Val.num (((ratTrunc ((encodeVal classes s : Int) : ℚ)) : Int) : ℚ))]]⟩ : Frame) from rfl)
        (show _ = (⟨["Genero", "Genero"], [[("Genero", Val.num ((ratTrunc (-1 : ℚ) : Int) : ℚ))], [("Genero", Val.num (((ratTrunc ((encodeVal classes s : Int) : ℚ)) : Int) : ℚ))]]⟩ : Frame) from rfl)
        (show _ = (⟨["Genero", "Genero"], [[("Genero", Val.num ((ratTrunc (-1 : ℚ) : Int) : ℚ))], [("Genero", Val.num (((ratTrunc ((encodeVal classes s : Int) : ℚ)) : Int) : ℚ))]]⟩ : Frame) from rfl)
        rfl
    · conv_rhs => rw [← ratTrunc_neg_one, ← ratTrunc_intCast (encodeVal classes s)]
      exact build_by_stages
        (show _ = (⟨["ProfesorAM1", "ProfesorAM1"], [[("ProfesorAM1", Val.null)], [("ProfesorAM1", Val.str s)]]⟩ : Frame) from rfl)
        (show _ = (⟨["ProfesorAM1", "ProfesorAM1"], [[("ProfesorAM1", Val.null)], [("ProfesorAM1", Val.str s)]]⟩ : Frame) from rfl)
        (show _ = (⟨["ProfesorAM1", "ProfesorAM1"], [[("ProfesorAM1", Val.null)], [("ProfesorAM1", Val.str s)]]⟩ : Frame) from rfl)
        (show _ = (⟨["ProfesorAM1", "ProfesorAM1"], [[("ProfesorAM1", Val.null)], [("ProfesorAM1", Val.str s)]]⟩ : Frame) from rfl)
        (show _ = Except.ok (⟨["ProfesorAM1", "ProfesorAM1"], [[("ProfesorAM1", Val.num ((ratTrunc (-1 : ℚ) : Int) : ℚ))], [("ProfesorAM1", Val.num (((ratTrunc ((encodeVal classes s : Int) : ℚ)) : Int) : ℚ))]]⟩ : Frame) from rfl)
        (show _ = (⟨["ProfesorAM1", "ProfesorAM1"], [[("ProfesorAM1", Val.num ((ratTrunc (-1 : ℚ) : Int) : ℚ))], [("ProfesorAM1", Val.num (((ratTrunc ((encodeVal classes s : Int) : ℚ)) : Int) : ℚ))]]⟩ : Frame) from rfl)
        (show _ = (⟨["ProfesorAM1", "ProfesorAM1"], [[("ProfesorAM1", Val.num ((ratTrunc (-1 : ℚ) : Int) : ℚ))], [("ProfesorAM1", Val.num (((ratTrunc ((encodeVal classes s : Int) : ℚ)) : Int) : ℚ))]]⟩ : Frame) from rfl)
        (show _ = (⟨["ProfesorAM1", "ProfesorAM1"], [[("ProfesorAM1", Val.num ((ratTrunc (-1 : ℚ) : Int) : ℚ))], [("ProfesorAM1", Val.num (((ratTrunc ((encodeVal classes s : Int) : ℚ)) : Int) : ℚ))]]⟩ : Frame) from rfl)
        rfl
    · conv_rhs => rw [← ratTrunc_neg_one, ← ratTrunc_intCast (encodeVal classes s)]
      exact build_by_stages
        (show _ = (⟨["ColegioTecnico", "ColegioTecnico"], [[("ColegioTecnico", Val.null)], [("ColegioTecnico", Val.str s)]]⟩ : Frame) from rfl)
        (show _ = (⟨["ColegioTecnico", "ColegioTecnico"], [[("ColegioTecnico", Val.null)], [("ColegioTecnico", Val.str s)]]⟩ : Frame) from rfl)
        (show _ = (⟨["ColegioTecnico", "ColegioTecnico"], [[("ColegioTecnico", Val.null)], [("ColegioTecnico", Val.str s)]]⟩ : Frame) from rfl)
        (show _ = (⟨["ColegioTecnico", "ColegioTecnico"], [[("ColegioTecnico", Val.null)], [("ColegioTecnico", Val.str s)]]⟩ : Frame) from rfl)
        (show _ = Except.ok (⟨["ColegioTecnico", "ColegioTecnico"], [[("ColegioTecnico", Val.num ((ratTrunc (-1 : ℚ) : Int) : ℚ))], [("ColegioTecnico", Val.num (((ratTrunc ((encodeVal classes s : Int) : ℚ)) : Int) : ℚ))]]⟩ : Frame) from rfl)
        (show _ = (⟨["ColegioTecnico", "ColegioTecnico"], [[("ColegioTecnico", Val.num ((ratTrunc (-1 : ℚ) : Int) : ℚ))], [("ColegioTecnico", Val.num (((ratTrunc ((encodeVal classes s : Int) : ℚ)) : Int) : ℚ))]]⟩ : Frame) from rfl)
        (show _ = (⟨["ColegioTecnico", "ColegioTecnico"], [[("ColegioTecnico", Val.num ((ratTrunc (-1 : ℚ) : Int) : ℚ))], [("ColegioTecnico", Val.num (((ratTrunc ((encodeVal classes s : Int) : ℚ)) : Int) : ℚ))]]⟩ : Frame) from rfl)
        (show _ = (⟨["ColegioTecnico", "ColegioTecnico"], [[("ColegioTecnico", Val.num ((ratTrunc (-1 : ℚ) : Int) : ℚ))], [("ColegioTecnico", Val.num (((ratTrunc ((encodeVal classes s : Int) : ℚ)) : Int) : ℚ))]]⟩ : Frame) from rfl)
        rfl
    · conv_rhs => rw [← ratTrunc_neg_one, ← ratTrunc_intCast (encodeVal classes s)]
      exact build_by_stages
        (show _ = (⟨["AyudaFinanciera", "AyudaFinanciera"], [[("AyudaFinanciera", Val.null)], [("AyudaFinanciera", Val.str s)]]⟩ : Frame) from rfl)
        (show _ = (⟨["AyudaFinanciera", "AyudaFinanciera"], [[("AyudaFinanciera", Val.null)], [("AyudaFinanciera", Val.str s)]]⟩ : Frame) from rfl)
        (show _ = (⟨["AyudaFinanciera", "AyudaFinanciera"], [[("AyudaFinanciera", Val.null)], [("AyudaFinanciera", Val.str s)]]⟩ : Frame) from rfl)
        (show _ = (⟨["AyudaFinanciera", "AyudaFinanciera"], [[("AyudaFinanciera", Val.null)], [("AyudaFinanciera", Val.str s)]]⟩ : Frame) from rfl)
        (show _ = Except.ok (⟨["AyudaFinanciera", "AyudaFinanciera"], [[("AyudaFinanciera", Val.num ((ratTrunc (-1 : ℚ) : Int) : ℚ))], [("AyudaFinanciera", Val.num (((ratTrunc ((encodeVal classes s : Int) : ℚ)) : Int) : ℚ))]]⟩ : Frame) from rfl)
        (show _ = (⟨["AyudaFinanciera", "AyudaFinanciera"], [[("AyudaFinanciera", Val.num ((ratTrunc (-1 : ℚ) : Int) : ℚ))], [("AyudaFinanciera", Val.num (((ratTrunc ((encodeVal classes s : Int) : ℚ)) : Int) : ℚ))]]⟩ : Frame) from rfl)
        (show _ = (⟨["AyudaFinanciera", "AyudaFinanciera"], [[("AyudaFinanciera", Val.num ((ratTrunc (-1 : ℚ) : Int) : ℚ))], [("AyudaFinanciera", Val.num (((ratTrunc ((encodeVal classes s : Int) : ℚ)) : Int) : ℚ))]]⟩ : Frame) from rfl)
        (show _ = (⟨["AyudaFinanciera", "AyudaFinanciera"], [[("AyudaFinanciera", Val.num ((ratTrunc (-1 : ℚ) : Int) : ℚ))], [("AyudaFinanciera", Val.num (((ratTrunc ((encodeVal classes s : Int) : ℚ)) : Int) : ℚ))]]⟩ : Frame) from rfl)
        rfl
  · intro c hc
    fin_cases hc
    ·
      exact build_by_stages
        (show _ = (⟨["Genero"], [[("Genero", Val.null)]]⟩ : Frame) from rfl)
        (show _ = (⟨["Genero"], [[("Genero", Val.null)]]⟩ : Frame) from rfl)
        (show _ = (⟨["Genero"], [[("Genero", Val.null)]]⟩ : Frame) from rfl)
        (show _ = (⟨["Genero"], [[("Genero", Val.null)]]⟩ : Frame) from rfl)
        (show _ = Except.ok (⟨["Genero"], [[("Genero", Val.num ((((toNumeric E Val.null).map ratTrunc).getD (-1) : Int) : ℚ))]]⟩ : Frame) from rfl)
        (show _ = (⟨["Genero"], [[("Genero", Val.num ((((toNumeric E Val.null).map ratTrunc).getD (-1) : Int) : ℚ))]]⟩ : Frame) from rfl)
        (show _ = (⟨["Genero"], [[("Genero", Val.num ((((toNumeric E Val.null).map ratTrunc).getD (-1) : Int) : ℚ))]]⟩ : Frame) from rfl)
        (show _ = (⟨["Genero"], [[("Genero", Val.num ((((toNumeric E Val.null).map ratTrunc).getD (-1) : Int) : ℚ))]]⟩ : Frame) from rfl)
        (by conv_rhs => rw [show (-1 : ℚ) = ((((toNumeric E Val.null).map ratTrunc).getD (-1) : Int) : ℚ) from by norm_num [toNumeric]]
            rfl)
    ·
      exact build_by_stages
        (show _ = (⟨["ProfesorAM1"], [[("ProfesorAM1", Val.null)]]⟩ : Frame) from rfl)
        (show _ = (⟨["ProfesorAM1"], [[("ProfesorAM1", Val.null)]]⟩ : Frame) from rfl)
        (show _ = (⟨["ProfesorAM1"], [[("ProfesorAM1", Val.null)]]⟩ : Frame) from rfl)
        (show _ = (⟨["ProfesorAM1"], [[("ProfesorAM1", Val.null)]]⟩ : Frame) from rfl)
        (show _ = Except.ok (⟨["ProfesorAM1"], [[("ProfesorAM1", Val.num ((((toNumeric E Val.null).map ratTrunc).getD (-1) : Int) : ℚ))]]⟩ : Frame) from rfl)
        (show _ = (⟨["ProfesorAM1"], [[("ProfesorAM1", Val.num ((((toNumeric E Val.null).map ratTrunc).getD (-1) : Int) : ℚ))]]⟩ : Frame) from rfl)
        (show _ = (⟨["ProfesorAM1"], [[("ProfesorAM1", Val.num ((((toNumeric E Val.null).map ratTrunc).getD (-1) : Int) : ℚ))]]⟩ : Frame) from rfl)
        (show _ = (⟨["ProfesorAM1"], [[("ProfesorAM1", Val.num ((((toNumeric E Val.null).map ratTrunc).getD (-1) : Int) : ℚ))]]⟩ : Frame) from rfl)
        (by conv_rhs => rw [show (-1 : ℚ) = ((((toNumeric E Val.null).map ratTrunc).getD (-1) : Int) : ℚ) from by norm_num [toNumeric]]
            rfl)
    ·
      exact build_by_stages
        (show _ = (⟨["ColegioTecnico"], [[("ColegioTecnico", Val.null)]]⟩ : Frame) from rfl)
        (show _ = (⟨["ColegioTecnico"], [[("ColegioTecnico", Val.null)]]⟩ : Frame) from rfl)
        (show _ = (⟨["ColegioTecnico"], [[("ColegioTecnico", Val.null)]]⟩ : Frame) from rfl)
        (show _ = (⟨["ColegioTecnico"], [[("ColegioTecnico", Val.null)]]⟩ : Frame) from rfl)
        (show _ = Except.ok (⟨["ColegioTecnico"], [[("ColegioTecnico", Val.num ((((toNumeric E Val.null).map ratTrunc).getD (-1) : Int) : ℚ))]]⟩ : Frame) from rfl)
        (show _ = (⟨["ColegioTecnico"], [[("ColegioTecnico", Val.num ((((toNumeric E Val.null).map ratTrunc).getD (-1) : Int) : ℚ))]]⟩ : Frame) from rfl)
        (show _ = (⟨["ColegioTecnico"], [[("ColegioTecnico", Val.num ((((toNumeric E Val.null).map ratTrunc).getD (-1) : Int) : ℚ))]]⟩ : Frame) from rfl)
        (show _ = (⟨["ColegioTecnico"], [[("ColegioTecnico", Val.num ((((toNumeric E Val.null).map ratTrunc).getD (-1) : Int) : ℚ))]]⟩ : Frame) from rfl)
        (by conv_rhs => rw [show (-1 : ℚ) = ((((toNumeric E Val.null).map ratTrunc).getD (-1) : Int) : ℚ) from by norm_num [toNumeric]]
            rfl)
    ·
      exact build_by_stages
        (show _ = (⟨["AyudaFinanciera"], [[("AyudaFinanciera", Val.null)]]⟩ : Frame) from rfl)
        (show _ = (⟨["AyudaFinanciera"], [[("AyudaFinanciera", Val.null)]]⟩ : Frame) from rfl)
        (show _ = (⟨["AyudaFinanciera"], [[("AyudaFinanciera", Val.null)]]⟩ : Frame) from rfl)
        (show _ = (⟨["AyudaFinanciera"], [[("AyudaFinanciera", Val.null)]]⟩ : Frame) from rfl)
        (show _ = Except.ok (⟨["AyudaFinanciera"], [[("AyudaFinanciera", Val.num ((((toNumeric E Val.null).map ratTrunc).getD (-1) : Int) : ℚ))]]⟩ : Frame) from rfl)
        (show _ = (⟨["AyudaFinanciera"], [[("AyudaFinanciera", Val.num ((((toNumeric E Val.null).map ratTrunc).getD (-1) : Int) : ℚ))]]⟩ : Frame) from rfl)
        (show _ = (⟨["AyudaFinanciera"], [[("AyudaFinanciera", Val.num ((((toNumeric E Val.null).map ratTrunc).getD (-1) : Int) : ℚ))]]⟩ : Frame) from rfl)
        (show _ = (⟨["AyudaFinanciera"], [[("AyudaFinanciera", Val.num ((((toNumeric E Val.null).map ratTrunc).getD (-1) : Int) : ℚ))]]⟩ : Frame) from rfl)
        (by conv_rhs => rw [show (-1 : ℚ) = ((((toNumeric E Val.null).map ratTrunc).getD (-1) : Int) : ℚ) from by norm_num [toNumeric]]
            rfl)

/-- Witness for C10 at concrete inputs. -/
theorem c10_witness :
    build_features_for_prediction extNone [[("Genero", Val.null)]]
        (some [("Genero", ["x", "y"])]) ⟨[], ["Genero"], ["Genero"]⟩ none
      = .ok [[Val.num (-1)]]
    ∧ build_features_for_prediction extNone [([] : RawItem)]
        (some [("Genero", ["x", "y"])]) ⟨[], ["Genero"], ["Genero"]⟩ none
      = .ok [[Val.num (-1)]]
    ∧ build_features_for_prediction extNone [[("Genero", Val.null)]] none
        ⟨[], ["Genero"], ["Genero"]⟩ none
      = .ok [[Val.num (-1)]] :=
  ⟨(c10_null_categorical_to_minus_one extNone).1 "Genero" (by decide) ["x", "y"],
   (c10_null_categorical_to_minus_one extNone).2.1 "Genero" (by decide) ["x", "y"],
   (c10_null_categorical_to_minus_one extNone).2.2.2 "Genero" (by decide)⟩

/-- C5: `clamp(clamp(x)) = clamp(x)` for every rational; every clamped
prediction lies in `[min_grade, max_grade]` (defaults 1 and 10); clamping
never rounds — values below the floor go to the floor, values above the
ceiling go to the ceiling, and values inside the closed interval are
returned unchanged. -/
theorem c5_clamp_idempotent_bounded_no_rounding (l : List ℚ) (x : ℚ) :
    clamp_grades min_grade max_grade (clamp_grades min_grade max_grade l)
        = clamp_grades min_grade max_grade l
    ∧ clamp1 min_grade max_grade (clamp1 min_grade max_grade x) = clamp1 min_grade max_grade x
    ∧ min_grade ≤ clamp1 min_grade max_grade x
    ∧ clamp1 min_grade max_grade x ≤ max_grade
    ∧ (x < min_grade → clamp1 min_grade max_grade x = min_grade)
    ∧ (max_grade < x → clamp1 min_grade max_grade x = max_grade)
    ∧ (min_grade ≤ x → x ≤ max_grade → clamp1 min_grade max_grade x = x) := by
  have hlh : min_grade ≤ max_grade := by norm_num [min_grade, max_grade]
  refine ⟨?_, clamp1_idem _ _ _ hlh, clamp1_ge_lo _ _ _, clamp1_le_hi _ _ _ hlh, ?_, ?_, ?_⟩
  · unfold clamp_grades
    rw [List.map_map]
    apply List.map_congr_left
    intro a _
    exact clamp1_idem _ _ _ hlh
  · intro hx
    unfold clamp1
    rw [min_eq_right (le_of_lt (lt_of_lt_of_le hx hlh)), max_eq_left (le_of_lt hx)]
  · intro hx
    unfold clamp1
    rw [min_eq_left (le_of_lt hx), max_eq_right hlh]
  · intro h1 h2
    unfold clamp1
    rw [min_eq_right h2, max_eq_right h1]

/-- Witness for C5 at concrete inputs: −5 is raised to the floor, 20 is
lowered to the ceiling, 5 is untouched. -/
theorem c5_witness :
    clamp1 min_grade max_grade (-5) = min_grade
    ∧ clamp1 min_grade max_grade 20 = max_grade
    ∧ clamp1 min_grade max_grade 5 = 5 :=
  ⟨(c5_clamp_idempotent_bounded_no_rounding [] (-5)).2.2.2.2.1
      (by norm_num [min_grade]),
   (c5_clamp_idempotent_bounded_no_rounding [] 20).2.2.2.2.2.1
      (by norm_num [max_grade]),
   (c5_clamp_idempotent_bounded_no_rounding [] 5).2.2.2.2.2.2
      (by norm_num [min_grade]) (by norm_num [max_grade])⟩

/-- C7: an empty item list is rejected as a 400 client error before any
artifact access — the cache state is returned unchanged and the disk-touched
flag is `false`. -/
theorem c7_empty_batch_rejected_before_loading (E : Ext)
    (digest : List (List (String × Option Val)) → String)
    (cache : Cache) (disk : Disk) (version : String) :
    predict_grades E digest cache disk version []
      = (.error (.badRequest "Items list cannot be empty"), cache, false) := rfl

/-- C8: loading a bundle fails if and only if a mandatory artifact is
absent — the model file (under either naming convention), the feature-order
manifest, or both metadata files (with `meta.json` falling back to legacy
`metadata.json`); an absent scaler or encoder table never causes failure and
loads as `none`. -/
theorem c8_load_bundle_notfound_iff_mandatory_absent (d : Disk) :
    ((loadBundle d).isOk = false
      ↔ (load_model d = none ∨ d.featureOrderJson = none
          ∨ (d.metaJson = none ∧ d.metadataJson = none)))
    ∧ (load_model d = none ↔ (d.modelJoblib = none ∧ d.modelPkl = none))
    ∧ (∀ b, loadBundle d = .ok b →
        b.scaler = load_scaler d ∧ b.encoders = load_encoder d)
    ∧ (d.scalerJoblib = none → d.scalerPkl = none → load_scaler d = none)
    ∧ (d.encodersJoblib = none → d.encoderPkl = none → load_encoder d = none) := by
  obtain ⟨mj, mp, sj, sp, ej, ep, fo, me, md⟩ := d
  cases mj <;> cases mp <;> cases fo <;> cases me <;> cases md <;> cases sj <;> cases ej <;>
    simp [loadBundle, load_model, load_scaler, load_encoder, Except.isOk, Except.toBool,
      Option.orElse]

/-- Witness for C8: a disk with no model file fails; a disk with only the
mandatory artifacts loads, with scaler and encoders absent. -/
theorem c8_witness :
    ((loadBundle ⟨none, none, none, none, none, none,
        some ⟨[], [], []⟩, some (), none⟩).isOk = false)
    ∧ (∀ b, loadBundle ⟨some (fun _ => []), none, none, none, none, none,
        some ⟨[], [], []⟩, some (), none⟩ = .ok b → b.scaler = none ∧ b.encoders = none) :=
  ⟨(c8_load_bundle_notfound_iff_mandatory_absent _).1.mpr (Or.inl rfl),
   fun b hb => by
    have h := (c8_load_bundle_notfound_iff_mandatory_absent _).2.2.1 b hb
    simpa [load_scaler, load_encoder, Option.orElse] using h⟩

/-- C6: when the artifact bundle resolves and the feature builder succeeds
on a non-empty batch, the endpoint returns exactly one prediction per input
item in input order: the prediction list is the clamped model output on the
built matrix, its length equals the item count, and entry `i` is the
clamped `i`-th model output (the model's one-float-per-row contract is the
hypothesis `hmodel`). -/
theorem c6_predictions_one_per_item_clamped_in_order (E : Ext)
    (digest : List (List (String × Option Val)) → String)
    (cache : Cache) (disk : Disk) (version : String) (items : List RawItem)
    (b : Bundle) (c' : Cache) (t : Bool) (X : List (List Val))
    (hne : items ≠ [])
    (hload : ensure_models_loaded cache disk "grades" version = (.ok b, c', t))
    (hmodel : ∀ Y : List (List Val), (b.model Y).length = Y.length)
    (hbuild : build_features_for_prediction E items b.encoders b.feature_order b.scaler
      = .ok X) :
    predict_grades E digest cache disk version items
      = (.ok { preds := clamp_grades min_grade max_grade (b.model X),
               n_items := items.length,
               features_hash := stable_features_hash digest items }, c', t)
    ∧ (clamp_grades min_grade max_grade (b.model X)).length = items.length
    ∧ ∀ i : Nat, (clamp_grades min_grade max_grade (b.model X))[i]?
        = ((b.model X)[i]?).map (clamp1 min_grade max_grade) := by
  refine ⟨?_, ?_, ?_⟩
  · unfold predict_grades
    rw [if_neg (by simpa [List.isEmpty_iff] using hne), hload]
    dsimp only
    rw [hbuild]
  · unfold clamp_grades
    rw [List.length_map, hmodel, (build_ok_shape E items b.encoders b.feature_order
      b.scaler X hbuild).1]
  · intro i
    unfold clamp_grades
    simp

/-- Witness for C6 at a concrete input: an empty-cache endpoint call on one
item with the constant-7 model returns one prediction, 7 clamped to 7. -/
theorem c6_witness :
    predict_grades extNone digestW [] diskW "v2.0.0" [[("Genero", Val.null)]]
      = (.ok { preds := clamp_grades min_grade max_grade (bundleW.model [[Val.num (-1)]]),
               n_items := 1,
               features_hash := stable_features_hash digestW [[("Genero", Val.null)]] },
         [("grades:v2.0.0", bundleW)], true)
    ∧ (clamp_grades min_grade max_grade (bundleW.model [[Val.num (-1)]])).length = 1 := by
  have h := c6_predictions_one_per_item_clamped_in_order extNone digestW [] diskW "v2.0.0"
    [[("Genero", Val.null)]] bundleW [("grades:v2.0.0", bundleW)] true [[Val.num (-1)]]
    (by simp) rfl (fun Y => by simp [bundleW]) (by decide)
  exact ⟨h.1, h.2.1⟩

theorem alook_perm {β : Type} (k : String) :
    ∀ {l₁ l₂ : List (String × β)}, List.Perm l₁ l₂ → (l₁.map Prod.fst).Nodup →
      alook k l₁ = alook k l₂ := by
  intro l₁ l₂ hp
  induction hp with
  | nil => intro _; rfl
  | cons x p ih =>
    intro hnd
    rcases x with ⟨k', v⟩
    simp only [alook]
    split
    · rfl
    · exact ih (by simpa using (List.nodup_cons.mp (by simpa using hnd)).2)
  | swap x y t =>
    intro hnd
    rcases x with ⟨kx, vx⟩
    rcases y with ⟨ky, vy⟩
    simp only [alook]
    by_cases h1 : kx = k <;> by_cases h2 : ky = k
    · exfalso
      have h5 := hnd
      simp only [List.map_cons, List.nodup_cons] at h5
      exact h5.1 (by rw [h2.trans h1.symm]; exact List.mem_cons_self _ _)
    · simp [h1, h2]
    · simp [h1, h2]
    · simp [h1, h2]
  | trans p₁ p₂ ih₁ ih₂ =>
    intro hnd
    rw [ih₁ hnd, ih₂ ((p₁.map Prod.fst).nodup_iff.mp hnd)]

theorem canonKeys_eq_of_perm {l₁ l₂ : RawItem} (hp : List.Perm l₁ l₂) :
    canonKeys l₁ = canonKeys l₂ := by
  unfold canonKeys
  have h1 : List.Perm (l₁.map Prod.fst).dedup (l₂.map Prod.fst).dedup := (hp.map Prod.fst).dedup
  exact List.eq_of_perm_of_sorted
    ((List.perm_insertionSort _ _).trans (h1.trans (List.perm_insertionSort _ _).symm))
    (List.sorted_insertionSort _ _) (List.sorted_insertionSort _ _)

theorem canonItem_eq_of_perm {l₁ l₂ : RawItem} (hp : List.Perm l₁ l₂)
    (hnd : (l₁.map Prod.fst).Nodup) : canonItem l₁ = canonItem l₂ := by
  unfold canonItem
  rw [canonKeys_eq_of_perm hp]
  apply List.map_congr_left
  intro k _
  rw [alook_perm k hp hnd]

theorem mem_canonKeys {l : RawItem} {k : String} (h : k ∈ l.map Prod.fst) :
    k ∈ canonKeys l := by
  unfold canonKeys
  exact (List.perm_insertionSort _ _).mem_iff.mpr (List.mem_dedup.mpr h)

/-- C9: the stable feature hash (md5 of the sorted-keys JSON serialisation,
modelled as an arbitrary `digest` of the canonical sorted-key form) is
identical for two item lists of the same logical content regardless of each
item's key insertion order; and — for a collision-free digest, which is the
assumption md5 stands for — two lists that differ in some feature's value
hash differently. -/
theorem c9_stable_hash_key_order_and_value_sensitivity (H : Type)
    (digest : List (List (String × Option Val)) → H) (a b : List RawItem) :
    (List.Forall₂ (fun x y => List.Perm x y ∧ (x.map Prod.fst).Nodup) a b →
      stable_features_hash digest a = stable_features_hash digest b)
    ∧ (Function.Injective digest →
        ∀ (i : Nat) (hia : i < a.length) (hib : i < b.length) (k : String),
          k ∈ (a.get ⟨i, hia⟩).map Prod.fst →
          alook k (a.get ⟨i, hia⟩) ≠ alook k (b.get ⟨i, hib⟩) →
          stable_features_hash digest a ≠ stable_features_hash digest b) := by
  constructor
  · intro hf
    unfold stable_features_hash canonicalize
    congr 1
    induction hf with
    | nil => rfl
    | cons hxy hrest ih =>
      simp only [List.map_cons]
      rw [canonItem_eq_of_perm hxy.1 hxy.2, ih]
  · intro hinj i hia hib k hk hv heq
    apply hv
    have hc : canonicalize a = canonicalize b := hinj heq
    have h1 : canonItem (a.get ⟨i, hia⟩) = canonItem (b.get ⟨i, hib⟩) := by
      have h2 := congrArg (fun l => l[i]?) hc
      simpa [canonicalize, List.getElem?_map, List.getElem?_eq_getElem, hia, hib,
        List.get_eq_getElem] using h2
    have hmem : (k, alook k (a.get ⟨i, hia⟩)) ∈ canonItem (a.get ⟨i, hia⟩) := by
      unfold canonItem
      exact List.mem_map.mpr ⟨k, mem_canonKeys hk, rfl⟩
    rw [h1] at hmem
    unfold canonItem at hmem
    obtain ⟨k2, hk2, hpair⟩ := List.mem_map.mp hmem
    obtain ⟨hkk, hvv⟩ := Prod.mk.injEq .. ▸ hpair
    exact (hkk ▸ hvv).symm

/-- Witness for C9: reordering an item's keys leaves the hash unchanged;
changing a value changes it (with the identity as the injective digest). -/
theorem c9_witness :
    stable_features_hash (fun l => l) [[("A", Val.num 1), ("B", Val.num 2)]]
      = stable_features_hash (fun l => l) [[("B", Val.num 2), ("A", Val.num 1)]]
    ∧ stable_features_hash (fun l => l) [[("A", Val.num 1)]]
      ≠ stable_features_hash (fun l => l) [[("A", Val.num 2)]] := by
  constructor
  · exact (c9_stable_hash_key_order_and_value_sensitivity _ (fun l => l) _ _).1
      (List.Forall₂.cons ⟨by decide, by decide⟩ List.Forall₂.nil)
  · exact (c9_stable_hash_key_order_and_value_sensitivity _ (fun l => l) _ _).2
      (fun x y h => h) 0 (by decide) (by decide) "A" (by decide) (by decide)

end GradeService
